import Mathlib

set_option maxRecDepth 200000

/-!
Verification of the pattern-detection core of the Chart-Snapshot-Analyzer
repository (`src/pattern_analyzer.py`), as a shallow embedding in Lean 4.

Modelling conventions:
* A pandas numeric column is a `List ℚ`; the DataFrame index (timestamps) is a
  `List Nat`.  All windowed computations are index-positional, as in pandas.
* A pandas rolling result is `Option ℚ` per position: `none` models `NaN`
  (window not fully populated, `min_periods = window` being the pandas default
  for an integer window).  Every comparison against `NaN` is `False` in
  pandas; the embedding's option-level comparisons mirror that.
* IEEE division corner cases are translated explicitly: `x / 0 = ±inf` for
  `x ≠ 0` and `0 / 0 = NaN` are spelled out in the few places the source
  relies on them (RSI), instead of using `ℚ`'s total division by zero.
-/

/-- First element of a list together with `List.foldl max`: the value
`max(xs)` of a nonempty list, `none` for the empty list. -/

def listMax : List ℚ → Option ℚ
  | [] => none
  | x :: xs => some (xs.foldl max x)

/-- Minimum of a nonempty list of rationals, `none` for the empty list. -/

def listMin : List ℚ → Option ℚ
  | [] => none
  | x :: xs => some (xs.foldl min x)

/-- Trailing window of pandas `series.rolling(window=w)` at position `i`: the
`w` values ending at `i`, provided the window is fully populated. -/

def trailingSlice (w : Nat) (xs : List ℚ) (i : Nat) : Option (List ℚ) :=
  if 1 ≤ w ∧ w ≤ i + 1 ∧ i < xs.length then some ((xs.drop (i + 1 - w)).take w)
  else none

/-- Pandas `series.rolling(window=w).mean()` at position `i`
(`NaN` = `none` until `w` observations are available). -/

def rollingMean (w : Nat) (xs : List ℚ) (i : Nat) : Option ℚ :=
  (trailingSlice w xs i).map (fun s => s.sum / (w : ℚ))

/-- Centered window of pandas `series.rolling(window=w, center=True)` at
position `t`: per pandas' fixed-window indexer the window is
`[t + 1 + offset - w, t + offset]` with `offset = (w - 1) / 2`, so for
`w ≥ 3` it extends beyond `t` into later positions. -/

def centeredSlice (w : Nat) (xs : List ℚ) (t : Nat) : Option (List ℚ) :=
  let offset := (w - 1) / 2
  if 1 ≤ w ∧ w ≤ t + 1 + offset ∧ t + offset < xs.length then
    some ((xs.drop (t + 1 + offset - w)).take w)
  else none

/-- Pandas `series.rolling(window=w, center=True).max()` at position `t`. -/

def rollingMaxCentered (w : Nat) (xs : List ℚ) (t : Nat) : Option ℚ :=
  (centeredSlice w xs t).bind listMax

/-- Pandas `series.rolling(window=w, center=True).min()` at position `t`. -/

def rollingMinCentered (w : Nat) (xs : List ℚ) (t : Nat) : Option ℚ :=
  (centeredSlice w xs t).bind listMin

/-- Gain series of `_calculate_rsi`: `delta = data.diff()` followed by
`delta.where(delta > 0, 0)`.  Position 0 of `diff` is `NaN`, and
`NaN > 0` is false, so `where` replaces it by `0`. -/

def gains (close : List ℚ) : List ℚ :=
  match close with
  | [] => []
  | _ :: _ => 0 :: (close.zip close.tail).map (fun p => max (p.2 - p.1) 0)

/-- Loss series of `_calculate_rsi`: `(-delta).where(delta < 0, 0)`, with the
leading `NaN` of `diff` likewise replaced by `0`. -/

def losses (close : List ℚ) : List ℚ :=
  match close with
  | [] => []
  | _ :: _ => 0 :: (close.zip close.tail).map (fun p => max (p.1 - p.2) 0)

/-- RSI of `PatternAnalyzer._calculate_rsi` at position `i`:
`rs = gain / loss`, `rsi = 100 - 100 / (1 + rs)`, computed with IEEE float
semantics — when the rolling loss mean is `0` and the gain mean is positive,
`rs = inf` and the formula collapses to `100`; when both means are `0`,
`rs = NaN` and the RSI is undefined at that position. -/

def rsiAt (close : List ℚ) (period : Nat) (i : Nat) : Option ℚ :=
  match rollingMean period (gains close) i, rollingMean period (losses close) i with
  | some g, some l =>
    if l = 0 then (if g = 0 then none else some 100)
    else some (100 - 100 / (1 + g / l))
  | _, _ => none

/-! ### Breakout detector (`PatternAnalyzer._detect_breakouts`) -/

/-- One entry of the list returned by `_detect_breakouts`. -/

structure BreakoutEvent where
  btype : String
  timestamp : Nat
  price : ℚ
  volume : ℚ
  strength : ℚ
  deriving DecidableEq, Repr

/-- Breakout strength of `_calculate_breakout_strength`.  The source slices
by calendar labels, `data['high'].loc[idx - Timedelta(days=20) : idx]`; the
embedding reads the index in days, so the slice keeps the rows whose
timestamp lies in `[ts - 20, ts]` (`.loc` label slices are inclusive at both
ends).  A zero extremum would raise `ZeroDivisionError` in the source, which
its handler turns into `0.0`. -/

def breakoutStrength (index : List Nat) (hi lo cl : List ℚ) (i : Nat)
    (side : String) : ℚ :=
  let ts := index.getD i 0
  let rows := (List.range index.length).filter
    (fun j => decide (ts ≤ index.getD j 0 + 20) && decide (index.getD j 0 ≤ ts))
  if side == "resistance" then
    match listMax (rows.map (fun j => hi.getD j 0)) with
    | some rh => if rh = 0 then 0 else max 0 ((cl.getD i 0 - rh) / rh)
    | none => 0
  else
    match listMin (rows.map (fun j => lo.getD j 0)) with
    | some rl => if rl = 0 then 0 else max 0 ((rl - cl.getD i 0) / rl)
    | none => 0

/-- Resistance-break mask of `_detect_breakouts` at row `i`:
`close > highs.shift(1)` (the centered rolling max evaluated at `i - 1`;
`NaN` at `i = 0` or an unpopulated window compares false) and
`close > open`. -/

def resBreakAt (lookback : Nat) (op hi cl : List ℚ) (i : Nat) : Bool :=
  decide (1 ≤ i) &&
  (match rollingMaxCentered lookback hi (i - 1) with
   | some m => decide (m < cl.getD i 0)
   | none => false) &&
  decide (op.getD i 0 < cl.getD i 0)

/-- Support-break mask of `_detect_breakouts` at row `i`:
`close < lows.shift(1)` and `close < open`. -/

def supBreakAt (lookback : Nat) (op lo cl : List ℚ) (i : Nat) : Bool :=
  decide (1 ≤ i) &&
  (match rollingMinCentered lookback lo (i - 1) with
   | some m => decide (cl.getD i 0 < m)
   | none => false) &&
  decide (cl.getD i 0 < op.getD i 0)

/-- Volume filter of `_detect_breakouts` at row `i`:
`volume > avg_volume * volume_threshold` with `avg_volume` the trailing
`lookback`-bar rolling mean of volume. -/

def highVolAt (lookback : Nat) (volTh : ℚ) (vol : List ℚ) (i : Nat) : Bool :=
  match rollingMean lookback vol i with
  | some a => decide (a * volTh < vol.getD i 0)
  | none => false

/-- Resistance-breakout events of `_detect_breakouts`, one per row of
`data[resistance_breaks & high_volume].index`, in row order. -/

def resBreakoutEvents (lookback : Nat) (volTh : ℚ) (index : List Nat)
    (op hi lo cl vol : List ℚ) : List BreakoutEvent :=
  ((List.range index.length).filter
      (fun i => resBreakAt lookback op hi cl i && highVolAt lookback volTh vol i)).map
    (fun i =>
      { btype := "resistance_breakout", timestamp := index.getD i 0,
        price := cl.getD i 0, volume := vol.getD i 0,
        strength := breakoutStrength index hi lo cl i "resistance" })

/-- Support-breakout events of `_detect_breakouts`, one per row of
`data[support_breaks & high_volume].index`, in row order. -/

def supBreakoutEvents (lookback : Nat) (volTh : ℚ) (index : List Nat)
    (op hi lo cl vol : List ℚ) : List BreakoutEvent :=
  ((List.range index.length).filter
      (fun i => supBreakAt lookback op lo cl i && highVolAt lookback volTh vol i)).map
    (fun i =>
      { btype := "support_breakout", timestamp := index.getD i 0,
        price := cl.getD i 0, volume := vol.getD i 0,
        strength := breakoutStrength index hi lo cl i "support" })

/-- The list returned by `_detect_breakouts`: all resistance breakouts are
appended first (their `for` loop runs first), then all support breakouts. -/

def detectBreakouts (lookback : Nat) (volTh : ℚ) (index : List Nat)
    (op hi lo cl vol : List ℚ) : List BreakoutEvent :=
  resBreakoutEvents lookback volTh index op hi lo cl vol
  ++ supBreakoutEvents lookback volTh index op hi lo cl vol

/-- Rolling maximum of highs over the trailing `lookback` window ending at
bar `i - 1`.  This definition follows the claim's words (a lookback window
ending at `i-1`, no lookahead into bar `i`), for comparison against the
source's centered window. -/

def trailingMaxPrev (lookback : Nat) (hi : List ℚ) (i : Nat) : Option ℚ :=
  (trailingSlice lookback hi (i - 1)).bind listMax

/-- Chronological order of an event list by triggering-bar timestamp, as the
spec states it for the breakout output. -/

def timestampsSorted : List Nat → Bool
  | [] => true
  | [_] => true
  | a :: b :: t => decide (a ≤ b) && timestampsSorted (b :: t)

/-- Whether a breakout event list is in chronological order. -/

def isChron (es : List BreakoutEvent) : Bool :=
  timestampsSorted (es.map (fun e => e.timestamp))

/-- Index column of the series refuting C1's lookback-window reading
(31 bars, timestamps 0..30). -/

def c1idx : List Nat := List.range 31

/-- Open column of the C1 counterexample series. -/

def c1op : List ℚ := (List.range 31).map (fun i => if i = 20 then 1 else 5)

/-- High column of the C1 counterexample series: a 1000-high at bar 5,
outside the centered window `[9, 28]` that `highs.shift(1)` sees at bar 20
but inside the trailing 20-bar window ending at bar 19. -/

def c1hi : List ℚ := (List.range 31).map (fun i => if i = 5 then 1000 else 10)

/-- Low column of the C1 counterexample series. -/

def c1lo : List ℚ := (List.range 31).map (fun _ => 5)

/-- Close column of the C1 counterexample series. -/

def c1cl : List ℚ := (List.range 31).map (fun i => if i = 20 then 50 else 5)

/-- Volume column of the C1 counterexample series. -/

def c1vol : List ℚ := (List.range 31).map (fun i => if i = 20 then 100 else 1)

/-! ### Level clustering (`PatternAnalyzer._cluster_levels`) -/

/-- One pass of the inner loop of `_cluster_levels`: attach `v` to the first
cluster whose representative `r` (the dict key, i.e. the cluster's seed
value) satisfies `|v - r| / r ≤ tolerance`, else append a new cluster seeded
by `v`.  The dict's keys iterate in insertion order, which the association
list reproduces.  For `r = 0` the source would raise `ZeroDivisionError`
(propagated to the caller's handler); the detector only feeds positive price
levels, and the theorems below restrict to that domain. -/

def insertLevel (tol : ℚ) : List (ℚ × List ℚ) → ℚ → List (ℚ × List ℚ)
  | [], v => [(v, [v])]
  | (r, ms) :: rest, v =>
    if |v - r| / r ≤ tol then (r, ms ++ [v]) :: rest
    else (r, ms) :: insertLevel tol rest v

/-- Source `_cluster_levels`: sort the candidate values ascending
(`levels.sort_values()`) and fold them into clusters. -/

def clusterLevels (levels : List ℚ) (tol : ℚ) : List (ℚ × List ℚ) :=
  (levels.insertionSort (· ≤ ·)).foldl (insertLevel tol) []

/-! ### Support/resistance detector (`PatternAnalyzer._detect_support_resistance`) -/

/-- One entry of the list returned by `_detect_support_resistance`.  Note
`last_touch` is `max(touches)` in the source, where `touches` is the
cluster's list of member PRICES — the source never records the originating
timestamps. -/

structure LevelEvent where
  ltype : String
  level : ℚ
  touches : Nat
  strength : ℚ
  last_touch : ℚ
  deriving DecidableEq, Repr

/-- Python `max` over a cluster's member list (clusters are never empty, so
the default for `[]` is never exercised). -/

def maxD : List ℚ → ℚ
  | [] => 0
  | x :: t => t.foldl max x

/-- Bars selected by `data[data['high'] == highs]` with `highs` the 5-bar
centered rolling max: positions whose high equals the local 5-bar maximum
(`NaN` rows at the edges compare false). -/

def resistanceCandidateBars (hi : List ℚ) (n : Nat) : List Nat :=
  (List.range n).filter (fun t =>
    match rollingMaxCentered 5 hi t with
    | some m => decide (hi.getD t 0 = m)
    | none => false)

/-- Bars selected by `data[data['low'] == lows]` with `lows` the 5-bar
centered rolling min. -/

def supportCandidateBars (lo : List ℚ) (n : Nat) : List Nat :=
  (List.range n).filter (fun t =>
    match rollingMinCentered 5 lo t with
    | some m => decide (lo.getD t 0 = m)
    | none => false)

/-- The list returned by `_detect_support_resistance`: cluster the candidate
extremum prices, keep clusters with at least `min_touches` members, and emit
per cluster `level` (the dict key), `touches` (member count),
`strength = touches / len(data) * 100` and `last_touch = max(touches)` —
the maximum member PRICE. -/

def detectSupportResistance (minTouches : Nat) (tol : ℚ) (index : List Nat)
    (hi lo : List ℚ) : List LevelEvent :=
  let n := index.length
  (clusterLevels ((resistanceCandidateBars hi n).map
      (fun t => hi.getD t 0)) tol).filterMap (fun c =>
    if minTouches ≤ c.2.length then
      some { ltype := "resistance", level := c.1, touches := c.2.length,
             strength := (c.2.length : ℚ) / (n : ℚ) * 100,
             last_touch := maxD c.2 }
    else none)
  ++ (clusterLevels ((supportCandidateBars lo n).map
      (fun t => lo.getD t 0)) tol).filterMap (fun c =>
    if minTouches ≤ c.2.length then
      some { ltype := "support", level := c.1, touches := c.2.length,
             strength := (c.2.length : ℚ) / (n : ℚ) * 100,
             last_touch := maxD c.2 }
    else none)

/-- Index column (timestamps 0..15) of the series exposing the `last_touch`
bug of C3. -/

def c3idx : List Nat := List.range 16

/-- High column of the C3 series: local highs of 100 at bar 3 and 102 at
bar 10 (within 2% of each other, so they cluster together), 50 elsewhere. -/

def c3hi : List ℚ :=
  (List.range 16).map (fun t => if t = 3 then 100 else if t = 10 then 102 else 50)

/-- Low column of the C3 series (flat). -/

def c3lo : List ℚ := (List.range 16).map (fun _ => 10)

/-! ### Peak finding (`scipy.signal.find_peaks`, used by `_detect_divergences`) -/

/-- Pandas `<` between two series values at one position: false whenever
either side is `NaN`. -/

def optLt : Option ℚ → Option ℚ → Bool
  | some a, some b => decide (a < b)
  | _, _ => false

/-- Pandas `≤` between two series values at one position: false whenever
either side is `NaN`. -/

def optLe : Option ℚ → Option ℚ → Bool
  | some a, some b => decide (a ≤ b)
  | _, _ => false

/-- Pandas/NumPy `==` between two possibly-`NaN` values: false whenever
either side is `NaN` (in particular `NaN == NaN` is false). -/

def optEq : Option ℚ → Option ℚ → Bool
  | some a, some b => decide (a = b)
  | _, _ => false

/-- Inner scan of scipy's `_local_maxima_1d`: starting at `k`, skip forward
over the plateau of samples equal to `xi`, stopping at `imax` (the last
index) or at the first differing (or `NaN`) sample. -/

def scanPlateau (x : List (Option ℚ)) (imax : Nat) (xi : Option ℚ) :
    Nat → Nat → Nat
  | 0, k => k
  | fuel + 1, k =>
    if k < imax && optEq (x.getD k none) xi then scanPlateau x imax xi fuel (k + 1)
    else k

/-- Main loop of scipy's `_local_maxima_1d`: a sample (or plateau) strictly
above both neighbours is a local maximum, recorded at the plateau's
midpoint; `NaN` samples never satisfy either strict comparison.  `fuel`
bounds the iteration count (the index advances by at least one per step, so
`x.length` steps always suffice). -/

def lmLoop (x : List (Option ℚ)) (imax : Nat) : Nat → Nat → List Nat
  | 0, _ => []
  | fuel + 1, i =>
    if i < imax then
      if optLt (x.getD (i - 1) none) (x.getD i none) then
        if optLt (x.getD (scanPlateau x imax (x.getD i none) x.length (i + 1))
            none) (x.getD i none) then
          (i + (scanPlateau x imax (x.getD i none) x.length (i + 1) - 1)) / 2 ::
            lmLoop x imax fuel
              (scanPlateau x imax (x.getD i none) x.length (i + 1) + 1)
        else lmLoop x imax fuel (i + 1)
      else lmLoop x imax fuel (i + 1)
    else []

/-- scipy `_local_maxima_1d`: indices of the strict local maxima of `x`
(plateau midpoints), in increasing order. -/

def localMaxima (x : List (Option ℚ)) : List Nat :=
  lmLoop x (x.length - 1) x.length 1

/-- One marking pass of scipy's `_select_by_peak_distance` for the kept peak
at position `j`: clear the keep-flag of every other peak strictly closer
than `d`.  (scipy's left/right `while` loops stop at the first peak at
distance `≥ d`; since the peak positions are sorted increasing, that early
exit visits exactly the peaks with `|peaks[k] − peaks[j]| < d`, which is
what this pass clears.) -/

def markClose (peaks : List Nat) (d j : Nat) (keep : List Bool) : List Bool :=
  keep.mapIdx (fun k b =>
    if k ≠ j ∧ Nat.dist (peaks.getD k 0) (peaks.getD j 0) < d then false else b)

/-- Stable ascending argsort of the peak priorities (scipy uses
`np.argsort`, which is stable for equal keys). -/

def argsortAsc (priority : List ℚ) : List Nat :=
  (List.range priority.length).insertionSort
    (fun a b => priority.getD a 0 < priority.getD b 0 ∨
      (priority.getD a 0 = priority.getD b 0 ∧ a ≤ b))

/-- scipy `_select_by_peak_distance`: walk the peaks from highest to lowest
priority (ties: higher index first); each still-kept peak clears all peaks
closer than `d`; return the surviving peaks in their original order. -/

def selectByPeakDistance (peaks : List Nat) (priority : List ℚ) (d : Nat) :
    List Nat :=
  ((List.range peaks.length).filter (fun k =>
    (((argsortAsc priority).reverse).foldl (fun keep j =>
        if keep.getD j false then markClose peaks d j keep else keep)
      (List.replicate peaks.length true)).getD k false)).map
    (fun k => peaks.getD k 0)

/-- Model of `scipy.signal.find_peaks(x, distance=d)`: local maxima thinned so that
no two surviving peaks are closer than `d` samples, the higher peak
winning.  `distance=5` is converted by scipy through `ceil` to the integer
`5`. -/

def findPeaks (x : List (Option ℚ)) (d : Nat) : List Nat :=
  selectByPeakDistance (localMaxima x)
    ((localMaxima x).map (fun k => (x.getD k none).getD 0)) d

/-! ### Divergence detector (`PatternAnalyzer._detect_divergences`) -/

/-- The RSI of the close series as a parallel `Option`-valued list
(`None` = `NaN`). -/

def rsiSeries (close : List ℚ) (period : Nat) : List (Option ℚ) :=
  (List.range close.length).map (fun i => rsiAt close period i)

/-- Source `find_peaks(data['close'], distance=5)`: price peaks. -/

def pricePeaks (close : List ℚ) : List Nat := findPeaks (close.map some) 5

/-- Source `find_peaks(-data['close'], distance=5)`: price troughs. -/

def priceTroughs (close : List ℚ) : List Nat :=
  findPeaks (close.map (fun c => some (-c))) 5

/-- Source `find_peaks(rsi, distance=5)`: RSI peaks (`NaN` warm-up positions can
never qualify). -/

def rsiPeaks (close : List ℚ) (period : Nat) : List Nat :=
  findPeaks (rsiSeries close period) 5

/-- Source `find_peaks(-rsi, distance=5)`: RSI troughs. -/

def rsiTroughs (close : List ℚ) (period : Nat) : List Nat :=
  findPeaks ((rsiSeries close period).map (Option.map (fun v => -v))) 5

/-- Slope `(vals[cur] − vals[prev]) / (cur − prev)` between two positions,
as `_detect_divergences` computes it for prices (and, with the first/last
in-range extremum, for the RSI). -/

def pairSlope (vals : List ℚ) (prev cur : Nat) : ℚ :=
  (vals.getD cur 0 - vals.getD prev 0) / ((cur : ℚ) - (prev : ℚ))

/-- RSI slope of `_detect_divergences` for the price-extremum pair
`[prev, cur]`: take the RSI extrema falling inside `[prev, cur]`; if at
least two exist, the slope between the first and the last of them,
otherwise nothing. -/

def rsiSlopeInRange (rsi : List (Option ℚ)) (rExtrema : List Nat)
    (prev cur : Nat) : Option ℚ :=
  if 2 ≤ (rExtrema.filter (fun t => decide (prev ≤ t) && decide (t ≤ cur))).length
  then some
    (((rsi.getD ((rExtrema.filter (fun t => decide (prev ≤ t) &&
          decide (t ≤ cur))).getLastD 0) none).getD 0 -
      (rsi.getD ((rExtrema.filter (fun t => decide (prev ≤ t) &&
          decide (t ≤ cur))).headD 0) none).getD 0) /
      (((rExtrema.filter (fun t => decide (prev ≤ t) &&
          decide (t ≤ cur))).getLastD 0 : ℚ) -
        ((rExtrema.filter (fun t => decide (prev ≤ t) &&
          decide (t ≤ cur))).headD 0 : ℚ)))
  else none

/-- One entry of the list returned by `_detect_divergences`. -/

structure DivergenceEvent where
  dtype : String
  timestamp : Nat
  price : ℚ
  rsi : Option ℚ
  strength : ℚ
  deriving DecidableEq, Repr

/-- Body of the bullish loop of `_detect_divergences` at trough pair
`(i-1, i)`: price slope negative, RSI slope positive,
`strength = |priceSlope × rsiSlope| > minStrength`. -/

def bullishDivAt (minStrength : ℚ) (index : List Nat) (close : List ℚ)
    (rsi : List (Option ℚ)) (pT rT : List Nat) (i : Nat) :
    Option DivergenceEvent :=
  match rsiSlopeInRange rsi rT (pT.getD (i - 1) 0) (pT.getD i 0) with
  | some rs =>
    if pairSlope close (pT.getD (i - 1) 0) (pT.getD i 0) < 0 ∧ 0 < rs then
      if minStrength < |pairSlope close (pT.getD (i - 1) 0) (pT.getD i 0) * rs|
      then some
        { dtype := "bullish_divergence", timestamp := index.getD (pT.getD i 0) 0,
          price := close.getD (pT.getD i 0) 0, rsi := rsi.getD (pT.getD i 0) none,
          strength := |pairSlope close (pT.getD (i - 1) 0) (pT.getD i 0) * rs| }
      else none
    else none
  | none => none

/-- Body of the bearish loop of `_detect_divergences` at peak pair
`(i-1, i)`: price slope positive, RSI slope negative. -/

def bearishDivAt (minStrength : ℚ) (index : List Nat) (close : List ℚ)
    (rsi : List (Option ℚ)) (pP rP : List Nat) (i : Nat) :
    Option DivergenceEvent :=
  match rsiSlopeInRange rsi rP (pP.getD (i - 1) 0) (pP.getD i 0) with
  | some rs =>
    if 0 < pairSlope close (pP.getD (i - 1) 0) (pP.getD i 0) ∧ rs < 0 then
      if minStrength < |pairSlope close (pP.getD (i - 1) 0) (pP.getD i 0) * rs|
      then some
        { dtype := "bearish_divergence", timestamp := index.getD (pP.getD i 0) 0,
          price := close.getD (pP.getD i 0) 0, rsi := rsi.getD (pP.getD i 0) none,
          strength := |pairSlope close (pP.getD (i - 1) 0) (pP.getD i 0) * rs| }
      else none
    else none
  | none => none

/-- The list returned by `_detect_divergences`: nothing unless at least 20
RSI samples exist (`len(rsi) = len(close)`); otherwise all bullish
divergences over consecutive price-trough pairs (the loop skips `i = 0`),
then all bearish divergences over consecutive price-peak pairs. -/

def detectDivergences (rsiPeriod : Nat) (minStrength : ℚ) (index : List Nat)
    (close : List ℚ) : List DivergenceEvent :=
  if close.length < 20 then [] else
  ((List.range (priceTroughs close).length).drop 1).filterMap
    (bullishDivAt minStrength index close (rsiSeries close rsiPeriod)
      (priceTroughs close) (rsiTroughs close rsiPeriod))
  ++ ((List.range (pricePeaks close).length).drop 1).filterMap
    (bearishDivAt minStrength index close (rsiSeries close rsiPeriod)
      (pricePeaks close) (rsiPeaks close rsiPeriod))

/-- Index column (timestamps 0..31) of the concrete divergence series. -/

def c6idx : List Nat := List.range 32

/-- Close column of the concrete divergence series: a crash into a trough at
bar 16 (RSI ≈ 2.9), a sharp recovery, then a slow slide to a LOWER price low
at bar 28 with a HIGHER RSI low (≈ 42.5) — a bullish divergence. -/

def c6close : List ℚ :=
  [150, 151, 150, 151, 152, 151, 145, 139, 133, 127, 121, 115, 109, 103, 97,
   91, 85, 95, 105, 115, 125, 130, 133, 124, 115, 106, 97, 88, 80, 86, 92, 98]

/-- The single event `_detect_divergences` emits on the series above. -/

def c6event : DivergenceEvent :=
  { dtype := "bullish_divergence", timestamp := 28, price := 80,
    rsi := some (4800/113), strength := 192875/140346 }

/-- The RSI series of the close column above, written out (the rational
values `_calculate_rsi` produces; `NaN` for the first 13 positions). -/

def c6rsi : List (Option ℚ) :=
  [none, none, none, none, none, none, none, none, none, none, none, none,
   none, some (300/53), some (300/59), some (25/8), some (200/69),
   some (550/39), some (2000/87), some (125/4), some 40, some (500/11),
   some 50, some (1600/33), some (800/17), some (320/7), some (400/9),
   some (1600/37), some (4800/113), some (5400/113), some (6000/113),
   some (5600/109)]

/-! ### Volume-anomaly detector (`PatternAnalyzer._detect_volume_anomalies`) -/

/-- Pandas `series.rolling(window=w).std()` squared, i.e. the rolling SAMPLE
variance (`ddof = 1`, pandas' default): `sum((x - mean)^2) / (w - 1)` over
the trailing window.  The standard deviation itself is its (irrational)
square root, so the embedding keeps the variance and the theorems compare
against `Real.sqrt` of it. -/

def rollingVar (w : Nat) (xs : List ℚ) (i : Nat) : Option ℚ :=
  (trailingSlice w xs i).map (fun s =>
    (s.map (fun x => (x - s.sum / (w : ℚ)) ^ 2)).sum / ((w : ℚ) - 1))

/-- Anomaly mask of `_detect_volume_anomalies` at row `i`:
`volume > avg_volume + 2 * volume_std` over fixed 20-bar windows.  Since
`volume_std = sqrt(var) ≥ 0`, that float comparison holds exactly when
`mean < volume` and `4 * var < (volume - mean)^2`, which is how the
embedding states it over `ℚ`; `volume_anomaly_iff_two_sigma` proves the
equivalence with the literal `mean + 2·√var < volume` reading.  A `NaN`
mean or std (window not populated) compares false. -/

def volumeAnomalyAt (vol : List ℚ) (i : Nat) : Bool :=
  match rollingMean 20 vol i, rollingVar 20 vol i with
  | some m, some v2 =>
    decide (m < vol.getD i 0) && decide (4 * v2 < (vol.getD i 0 - m) ^ 2)
  | _, _ => false

/-- One entry of the list returned by `_detect_volume_anomalies`.  The
source's `deviation = (volume - avg_volume) / volume_std` is an irrational
float; the embedding carries it exactly as the pair of its numerator
`devNum = volume - avg_volume` and the variance `devVar = volume_std²`, the
value being `devNum / Real.sqrt devVar`. -/

structure VolumeAnomalyEvent where
  vtype : String
  timestamp : Nat
  volume : ℚ
  avg_volume : ℚ
  devNum : ℚ
  devVar : ℚ
  deriving DecidableEq, Repr

/-- The list returned by `_detect_volume_anomalies`: one event per row where
the anomaly mask holds, in row order. -/

def detectVolumeAnomalies (index : List Nat) (vol : List ℚ) :
    List VolumeAnomalyEvent :=
  ((List.range index.length).filter (fun i => volumeAnomalyAt vol i)).map
    (fun i =>
      { vtype := "high_volume", timestamp := index.getD i 0,
        volume := vol.getD i 0,
        avg_volume := (rollingMean 20 vol i).getD 0,
        devNum := vol.getD i 0 - (rollingMean 20 vol i).getD 0,
        devVar := (rollingVar 20 vol i).getD 0 })

/-! ### Trend-change detector (`PatternAnalyzer._detect_trend_changes`) -/

/-- Bullish-crossover mask of `_detect_trend_changes` at row `i`:
`(sma_20 > sma_50) & (sma_20.shift(1) <= sma_50.shift(1))`; the shifted
values are `NaN` at row 0. -/

def bullishCrossAt (close : List ℚ) (i : Nat) : Bool :=
  optLt (rollingMean 50 close i) (rollingMean 20 close i) &&
  (decide (1 ≤ i) &&
    optLe (rollingMean 20 close (i - 1)) (rollingMean 50 close (i - 1)))

/-- Bearish-crossover mask of `_detect_trend_changes` at row `i`:
`(sma_20 < sma_50) & (sma_20.shift(1) >= sma_50.shift(1))`. -/

def bearishCrossAt (close : List ℚ) (i : Nat) : Bool :=
  optLt (rollingMean 20 close i) (rollingMean 50 close i) &&
  (decide (1 ≤ i) &&
    optLe (rollingMean 50 close (i - 1)) (rollingMean 20 close (i - 1)))

/-- One entry of the list returned by `_detect_trend_changes`. -/

structure TrendChangeEvent where
  ttype : String
  timestamp : Nat
  price : ℚ
  sma_20 : Option ℚ
  sma_50 : Option ℚ
  deriving DecidableEq, Repr

/-- The list returned by `_detect_trend_changes`: all bullish crossovers
first (row order), then all bearish crossovers. -/

def detectTrendChanges (index : List Nat) (close : List ℚ) :
    List TrendChangeEvent :=
  ((List.range index.length).filter (fun i => bullishCrossAt close i)).map
    (fun i =>
      { ttype := "bullish_crossover", timestamp := index.getD i 0,
        price := close.getD i 0, sma_20 := rollingMean 20 close i,
        sma_50 := rollingMean 50 close i })
  ++ ((List.range index.length).filter (fun i => bearishCrossAt close i)).map
    (fun i =>
      { ttype := "bearish_crossover", timestamp := index.getD i 0,
        price := close.getD i 0, sma_20 := rollingMean 20 close i,
        sma_50 := rollingMean 50 close i })

/-- Index column of the series refuting C7's cross-kind chronological order
(31 bars, timestamps 0..30). -/

def c7idx : List Nat := List.range 31

/-- Open column of the C7 counterexample series. -/

def c7op : List ℚ :=
  (List.range 31).map (fun i => if i = 20 then 6 else if i = 21 then 1 else 5)

/-- High column of the C7 counterexample series. -/

def c7hi : List ℚ := (List.range 31).map (fun _ => 20)

/-- Low column of the C7 counterexample series. -/

def c7lo : List ℚ := (List.range 31).map (fun _ => 10)

/-- Close column of the C7 counterexample series. -/

def c7cl : List ℚ := (List.range 31).map (fun i => if i = 21 then 50 else 5)

/-- Volume column of the C7 counterexample series. -/

def c7vol : List ℚ :=
  (List.range 31).map (fun i => if i = 20 || i = 21 then 100 else 1)

/-! ### Aggregator (`PatternAnalyzer.analyze` and `_analyze_technical_signals`) -/

/-- The input DataFrame as `analyze` receives it: a timestamp index plus
five optional numeric columns.  A missing column models malformed input —
accessing it (`data['volume']`) raises `KeyError` in the source, the fault
each detector's internal `try/except` handler absorbs.  (`open` is a Lean
keyword, hence the `Col` suffixes.) -/

structure DataFrame where
  index : List Nat
  openCol : Option (List ℚ)
  highCol : Option (List ℚ)
  lowCol : Option (List ℚ)
  closeCol : Option (List ℚ)
  volumeCol : Option (List ℚ)
  deriving Repr

/-- Column access `data[name]`: the column's values, or a `KeyError` carrying the column
name. -/

def getCol : Option (List ℚ) → String → Except String (List ℚ)
  | some xs, _ => Except.ok xs
  | none, name => Except.error name

/-- The body of `_detect_breakouts` up to its own `except` handler: the
column accesses that can raise, then the pure detection. -/

def breakoutsBody (lookback : Nat) (volTh : ℚ) (df : DataFrame) :
    Except String (List BreakoutEvent) := do
  let hi ← getCol df.highCol "high"
  let lo ← getCol df.lowCol "low"
  let cl ← getCol df.closeCol "close"
  let op ← getCol df.openCol "open"
  let vol ← getCol df.volumeCol "volume"
  pure (detectBreakouts lookback volTh df.index op hi lo cl vol)

/-- Source `_detect_breakouts` with its handler: a fault yields the accumulated
(empty) list. -/

def detectBreakoutsDF (lookback : Nat) (volTh : ℚ) (df : DataFrame) :
    List BreakoutEvent :=
  match breakoutsBody lookback volTh df with
  | Except.ok l => l
  | Except.error _ => []

/-- The body of `_detect_divergences` up to its handler. -/

def divergencesBody (rsiPeriod : Nat) (minStrength : ℚ) (df : DataFrame) :
    Except String (List DivergenceEvent) := do
  let cl ← getCol df.closeCol "close"
  pure (detectDivergences rsiPeriod minStrength df.index cl)

/-- Source `_detect_divergences` with its handler. -/

def detectDivergencesDF (rsiPeriod : Nat) (minStrength : ℚ)
    (df : DataFrame) : List DivergenceEvent :=
  match divergencesBody rsiPeriod minStrength df with
  | Except.ok l => l
  | Except.error _ => []

/-- The body of `_detect_support_resistance` up to its handler. -/

def supportResistanceBody (minTouches : Nat) (tol : ℚ) (df : DataFrame) :
    Except String (List LevelEvent) := do
  let hi ← getCol df.highCol "high"
  let lo ← getCol df.lowCol "low"
  pure (detectSupportResistance minTouches tol df.index hi lo)

/-- Source `_detect_support_resistance` with its handler. -/

def detectSupportResistanceDF (minTouches : Nat) (tol : ℚ)
    (df : DataFrame) : List LevelEvent :=
  match supportResistanceBody minTouches tol df with
  | Except.ok l => l
  | Except.error _ => []

/-- The body of `_detect_trend_changes` up to its handler. -/

def trendChangesBody (df : DataFrame) : Except String (List TrendChangeEvent) := do
  let cl ← getCol df.closeCol "close"
  pure (detectTrendChanges df.index cl)

/-- Source `_detect_trend_changes` with its handler. -/

def detectTrendChangesDF (df : DataFrame) : List TrendChangeEvent :=
  match trendChangesBody df with
  | Except.ok l => l
  | Except.error _ => []

/-- The body of `_detect_volume_anomalies` up to its handler. -/

def volumeAnomaliesBody (df : DataFrame) :
    Except String (List VolumeAnomalyEvent) := do
  let vol ← getCol df.volumeCol "volume"
  pure (detectVolumeAnomalies df.index vol)

/-- Source `_detect_volume_anomalies` with its handler. -/

def detectVolumeAnomaliesDF (df : DataFrame) : List VolumeAnomalyEvent :=
  match volumeAnomaliesBody df with
  | Except.ok l => l
  | Except.error _ => []

/-- Pandas `series.ewm(span=s).mean()` with the default `adjust=True`:
`y[t] = Σ_k (1-α)^k · x[t-k] / Σ_k (1-α)^k`, `α = 2/(span+1)`; defined from
the first observation on. -/

def ewmMean (span : Nat) (xs : List ℚ) : List ℚ :=
  (List.range xs.length).map (fun t =>
    (((List.range (t + 1)).map
      (fun k => (1 - 2 / ((span : ℚ) + 1)) ^ k * xs.getD (t - k) 0)).sum) /
    (((List.range (t + 1)).map (fun k => (1 - 2 / ((span : ℚ) + 1)) ^ k)).sum))

/-- Source `_calculate_macd` with the defaults 12/26/9:
`(macd, signal, histogram)` as three parallel lists. -/

def macdLists (close : List ℚ) : List ℚ × List ℚ × List ℚ :=
  ((ewmMean 12 close).zipWith (fun a b => a - b) (ewmMean 26 close),
   ewmMean 9 ((ewmMean 12 close).zipWith (fun a b => a - b) (ewmMean 26 close)),
   ((ewmMean 12 close).zipWith (fun a b => a - b) (ewmMean 26 close)).zipWith
     (fun a b => a - b)
     (ewmMean 9 ((ewmMean 12 close).zipWith (fun a b => a - b)
       (ewmMean 26 close))))

/-- The `signals['rsi']` entry. -/

structure RsiSignal where
  current : Option ℚ
  overbought : Bool
  oversold : Bool
  deriving DecidableEq, Repr

/-- The `signals['macd']` entry. -/

structure MacdSignal where
  current : Option ℚ
  signal : Option ℚ
  histogram : Option ℚ
  bullish_crossover : Bool
  bearish_crossover : Bool
  deriving DecidableEq, Repr

/-- The `signals['trend']` entry. -/

structure TrendSignal where
  sma_20 : Option ℚ
  sma_50 : Option ℚ
  bullish : Option Bool
  deriving DecidableEq, Repr

/-- The `signals` dict of `_analyze_technical_signals`: keys are added in
sequence inside a `try`, so an exception part-way leaves the earlier keys in
place (`none` = key absent). -/

structure TechnicalSignals where
  rsi : Option RsiSignal
  macd : Option MacdSignal
  trend : Option TrendSignal
  deriving DecidableEq, Repr

/-- Source `_analyze_technical_signals` over the close column.  On an empty series
`rsi.iloc[-1]` raises `IndexError` before any key is set (handler returns
`{}`); on a one-row series the RSI entry is built but `macd.iloc[-2]`
raises, so only the RSI key survives; otherwise all three entries are
built (the ewm-based MACD values are defined from the first row, and the
SMA values may be `NaN`, mapped to `None` fields with false/absent
flags). -/

def technicalSignals (close : List ℚ) : TechnicalSignals :=
  if close.length = 0 then ⟨none, none, none⟩
  else
    if close.length < 2 then
      ⟨some { current := rsiAt close 14 (close.length - 1),
              overbought := match rsiAt close 14 (close.length - 1) with
                | some v => decide (70 < v)
                | none => false,
              oversold := match rsiAt close 14 (close.length - 1) with
                | some v => decide (v < 30)
                | none => false }, none, none⟩
    else
      ⟨some { current := rsiAt close 14 (close.length - 1),
              overbought := match rsiAt close 14 (close.length - 1) with
                | some v => decide (70 < v)
                | none => false,
              oversold := match rsiAt close 14 (close.length - 1) with
                | some v => decide (v < 30)
                | none => false },
        some { current := some ((macdLists close).1.getD (close.length - 1) 0),
               signal := some ((macdLists close).2.1.getD (close.length - 1) 0),
               histogram := some ((macdLists close).2.2.getD (close.length - 1) 0),
               bullish_crossover :=
                 decide ((macdLists close).2.1.getD (close.length - 1) 0 <
                   (macdLists close).1.getD (close.length - 1) 0) &&
                 decide ((macdLists close).1.getD (close.length - 2) 0 ≤
                   (macdLists close).2.1.getD (close.length - 2) 0),
               bearish_crossover :=
                 decide ((macdLists close).1.getD (close.length - 1) 0 <
                   (macdLists close).2.1.getD (close.length - 1) 0) &&
                 decide ((macdLists close).2.1.getD (close.length - 2) 0 ≤
                   (macdLists close).1.getD (close.length - 2) 0) },
        some { sma_20 := rollingMean 20 close (close.length - 1),
               sma_50 := rollingMean 50 close (close.length - 1),
               bullish :=
                 match rollingMean 20 close (close.length - 1),
                     rollingMean 50 close (close.length - 1) with
                 | some a, some b => some (decide (b < a))
                 | _, _ => none }⟩

/-- Source `_analyze_technical_signals` with its handler: a missing close column
faults at the first line inside the `try`, yielding the empty dict. -/

def technicalSignalsDF (df : DataFrame) : TechnicalSignals :=
  match getCol df.closeCol "close" with
  | Except.ok cl => technicalSignals cl
  | Except.error _ => ⟨none, none, none⟩

/-- The `patterns` config of the source, with the defaults the `.get`
calls supply. -/

structure PatternsConfig where
  breakoutEnabled : Bool := true
  breakoutLookback : Nat := 20
  breakoutVolumeThreshold : ℚ := 3/2
  divergenceEnabled : Bool := true
  divergenceRsiPeriods : Nat := 14
  divergenceMinStrength : ℚ := 3/10
  srEnabled : Bool := true
  srMinTouches : Nat := 2
  srTolerance : ℚ := 1/50
  deriving Repr

/-- The `patterns` dict `analyze` assembles and returns. -/

structure AnalysisResult where
  symbol : String
  timestamp : Nat
  breakouts : List BreakoutEvent
  divergences : List DivergenceEvent
  support_resistance : List LevelEvent
  trend_changes : List TrendChangeEvent
  volume_anomalies : List VolumeAnomalyEvent
  technical_signals : TechnicalSignals
  deriving Repr

/-- The dict returned by `PatternAnalyzer.analyze` (`pd.Timestamp.now()` is
modelled by the `now` argument).  The source performs NO validation of the
input (neither emptiness nor sortedness is checked anywhere); each detector
call is total because every detector swallows its own exceptions, so the
`try/except` wrapping the detector sequence in `analyze` never fires and
the fully assembled dict is always returned. -/

def analyze (cfg : PatternsConfig) (now : Nat) (df : DataFrame)
    (symbol : String) : AnalysisResult :=
  { symbol := symbol, timestamp := now,
    breakouts := if cfg.breakoutEnabled then
      detectBreakoutsDF cfg.breakoutLookback cfg.breakoutVolumeThreshold df
      else [],
    divergences := if cfg.divergenceEnabled then
      detectDivergencesDF cfg.divergenceRsiPeriods cfg.divergenceMinStrength df
      else [],
    support_resistance := if cfg.srEnabled then
      detectSupportResistanceDF cfg.srMinTouches cfg.srTolerance df
      else [],
    trend_changes := detectTrendChangesDF df,
    volume_anomalies := detectVolumeAnomaliesDF df,
    technical_signals := technicalSignalsDF df }

/-- The empty input series (all columns present, zero rows). -/

def emptyDF : DataFrame :=
  { index := [], openCol := some [], highCol := some [], lowCol := some [],
    closeCol := some [], volumeCol := some [] }

/-- A non-chronologically-sorted input series (timestamps 7, 3). -/

def unsortedDF : DataFrame :=
  { index := [7, 3], openCol := some [2, 1], highCol := some [2, 1],
    lowCol := some [2, 1], closeCol := some [2, 1], volumeCol := some [1, 1] }

/-- A malformed input series: the volume column is missing, so
`data['volume']` raises `KeyError` inside `_detect_breakouts` (and
`_detect_volume_anomalies`), while the close-based detectors see nothing
wrong. -/

def noVolumeDF : DataFrame :=
  { index := [0, 1, 2], openCol := some [1, 2, 3], highCol := some [3, 4, 5],
    lowCol := some [1, 1, 1], closeCol := some [2, 3, 4], volumeCol := none }

/-- C8: a fault in any single detector body (e.g. a missing column — the
`KeyError` the source's per-detector `except` handlers absorb) leaves that
detector's event sequence empty while `analyze` still returns the complete
result record, every other field being exactly its own detector's output
(the fields are computed independently, so the remaining detectors run
regardless of the fault); the concrete frame `noVolumeDF` exercises this:
its breakout body faults on the missing volume column, the breakout
sequence is empty, and the close-based detectors still run. -/

theorem foldl_max_init_le (t : List ℚ) (x : ℚ) : x ≤ t.foldl max x := by
  induction t generalizing x with
  | nil => exact le_refl x
  | cons a t ih => exact le_trans (le_max_left x a) (ih (max x a))

theorem foldl_max_mem_le (t : List ℚ) (x y : ℚ) (hy : y ∈ t) :
    y ≤ t.foldl max x := by
  induction t generalizing x with
  | nil => simp at hy
  | cons a t ih =>
    rcases List.mem_cons.mp hy with rfl | hy
    · exact le_trans (le_max_right x y) (foldl_max_init_le t (max x y))
    · exact ih (max x a) hy

theorem foldl_max_mem (t : List ℚ) (x : ℚ) : t.foldl max x ∈ x :: t := by
  induction t generalizing x with
  | nil => simp
  | cons a t ih =>
    simp only [List.foldl_cons]
    rcases List.mem_cons.mp (ih (max x a)) with h | h
    · rw [h]
      rcases max_choice x a with h2 | h2 <;> rw [h2] <;> simp
    · simp [h]

theorem listMax_le {xs : List ℚ} {m : ℚ} (h : listMax xs = some m) :
    ∀ y ∈ xs, y ≤ m := by
  match xs with
  | [] => simp [listMax] at h
  | x :: t =>
    simp only [listMax, Option.some.injEq] at h
    subst h
    intro y hy
    rcases List.mem_cons.mp hy with rfl | hy
    · exact foldl_max_init_le t y
    · exact foldl_max_mem_le t x y hy

theorem listMax_mem {xs : List ℚ} {m : ℚ} (h : listMax xs = some m) : m ∈ xs := by
  match xs with
  | [] => simp [listMax] at h
  | x :: t =>
    simp only [listMax, Option.some.injEq] at h
    subst h
    exact foldl_max_mem t x

theorem trailingSlice_sublist {w : Nat} {xs : List ℚ} {i : Nat} {s : List ℚ}
    (h : trailingSlice w xs i = some s) : ∀ y ∈ s, y ∈ xs := by
  simp only [trailingSlice] at h
  split at h
  · cases h
    intro y hy
    exact List.mem_of_mem_drop (List.mem_of_mem_take hy)
  · cases h

theorem gains_nonneg (close : List ℚ) : ∀ y ∈ gains close, 0 ≤ y := by
  intro y hy
  cases close with
  | nil => simp [gains] at hy
  | cons c t =>
    simp only [gains, List.mem_cons, List.mem_map] at hy
    rcases hy with rfl | ⟨p, _, rfl⟩
    · exact le_refl 0
    · exact le_max_right _ 0

theorem losses_nonneg (close : List ℚ) : ∀ y ∈ losses close, 0 ≤ y := by
  intro y hy
  cases close with
  | nil => simp [losses] at hy
  | cons c t =>
    simp only [losses, List.mem_cons, List.mem_map] at hy
    rcases hy with rfl | ⟨p, _, rfl⟩
    · exact le_refl 0
    · exact le_max_right _ 0

theorem rollingMean_nonneg {w : Nat} {xs : List ℚ} {i : Nat} {v : ℚ}
    (hxs : ∀ y ∈ xs, 0 ≤ y) (h : rollingMean w xs i = some v) : 0 ≤ v := by
  simp only [rollingMean, Option.map_eq_some'] at h
  obtain ⟨s, hs, rfl⟩ := h
  have hmem := trailingSlice_sublist hs
  have hsum : 0 ≤ s.sum := List.sum_nonneg (fun y hy => hxs y (hmem y hy))
  positivity

/-- C2: wherever the RSI of `_calculate_rsi` is defined its value lies in
`[0, 100]`; and when the rolling loss mean is zero while the gain mean is
positive, the RSI is defined and equals exactly `100` (the `rs = inf`
degenerate case resolves to 100 rather than a fault). -/

theorem rsi_bounds_and_zero_loss (close : List ℚ) (period i : Nat) :
    (∀ v, rsiAt close period i = some v → 0 ≤ v ∧ v ≤ 100) ∧
    (∀ g, rollingMean period (losses close) i = some 0 →
      rollingMean period (gains close) i = some g → 0 < g →
      rsiAt close period i = some 100) := by
  constructor
  · intro v hv
    unfold rsiAt at hv
    cases hg : rollingMean period (gains close) i with
    | none => rw [hg] at hv; exact absurd hv (by simp)
    | some g =>
      cases hl : rollingMean period (losses close) i with
      | none => rw [hg, hl] at hv; exact absurd hv (by simp)
      | some l =>
        rw [hg, hl] at hv
        have hv2 : (if l = 0 then (if g = 0 then none else some (100 : ℚ))
            else some (100 - 100 / (1 + g / l))) = some v := hv
        by_cases hl0 : l = 0
        · rw [if_pos hl0] at hv2
          by_cases hg0 : g = 0
          · rw [if_pos hg0] at hv2; exact absurd hv2 (by simp)
          · rw [if_neg hg0] at hv2
            cases hv2
            norm_num
        · rw [if_neg hl0] at hv2
          cases hv2
          have hgpos : 0 ≤ g := rollingMean_nonneg (gains_nonneg close) hg
          have hlpos : 0 < l :=
            lt_of_le_of_ne (rollingMean_nonneg (losses_nonneg close) hl)
              (fun h => hl0 h.symm)
          have hrs : 0 ≤ g / l := div_nonneg hgpos hlpos.le
          have h1 : (0 : ℚ) < 1 + g / l := by linarith
          have h2 : 100 / (1 + g / l) ≤ 100 := by
            rw [div_le_iff₀ h1]; nlinarith
          have h3 : 0 < 100 / (1 + g / l) := by positivity
          constructor <;> linarith
  · intro g hl hg hgpos
    unfold rsiAt
    rw [hg, hl]
    show (if (0 : ℚ) = 0 then (if g = 0 then none else some (100 : ℚ))
        else some (100 - 100 / (1 + g / 0))) = some 100
    rw [if_pos rfl, if_neg (ne_of_gt hgpos)]

theorem resBreakAt_iff {lookback : Nat} {op hi cl : List ℚ} {i : Nat} :
    resBreakAt lookback op hi cl i = true ↔
      1 ≤ i ∧ (∃ m, rollingMaxCentered lookback hi (i - 1) = some m ∧
        m < cl.getD i 0) ∧ op.getD i 0 < cl.getD i 0 := by
  unfold resBreakAt
  cases h : rollingMaxCentered lookback hi (i - 1) <;>
    simp [h, Bool.and_eq_true, decide_eq_true_iff, and_assoc]

theorem supBreakAt_iff {lookback : Nat} {op lo cl : List ℚ} {i : Nat} :
    supBreakAt lookback op lo cl i = true ↔
      1 ≤ i ∧ (∃ m, rollingMinCentered lookback lo (i - 1) = some m ∧
        cl.getD i 0 < m) ∧ cl.getD i 0 < op.getD i 0 := by
  unfold supBreakAt
  cases h : rollingMinCentered lookback lo (i - 1) <;>
    simp [h, Bool.and_eq_true, decide_eq_true_iff, and_assoc]

theorem highVolAt_iff {lookback : Nat} {volTh : ℚ} {vol : List ℚ} {i : Nat} :
    highVolAt lookback volTh vol i = true ↔
      ∃ a, rollingMean lookback vol i = some a ∧ a * volTh < vol.getD i 0 := by
  unfold highVolAt
  cases h : rollingMean lookback vol i <;> simp [h, decide_eq_true_iff]

/-- C1 (amended): every resistance-breakout event flagged by
`_detect_breakouts` satisfies exactly the source's three conditions at its
bar `i`: the close strictly exceeds the CENTERED rolling maximum of highs
evaluated at bar `i-1` (a window that, for `lookback ≥ 3`, extends past bar
`i-1` into bar `i` and later bars — it is not the trailing window ending at
`i-1`, and it does look ahead), the bar is bullish (`close > open`), and the
volume exceeds `volumeThreshold` times the trailing `lookback`-bar average
volume. -/

theorem resistance_breakout_conditions (lookback : Nat) (volTh : ℚ)
    (index : List Nat) (op hi lo cl vol : List ℚ) (e : BreakoutEvent)
    (he : e ∈ detectBreakouts lookback volTh index op hi lo cl vol)
    (ht : e.btype = "resistance_breakout") :
    ∃ i, i < index.length ∧ e.timestamp = index.getD i 0 ∧ 1 ≤ i ∧
      (∃ m, rollingMaxCentered lookback hi (i - 1) = some m ∧
        m < cl.getD i 0) ∧
      op.getD i 0 < cl.getD i 0 ∧
      (∃ a, rollingMean lookback vol i = some a ∧
        a * volTh < vol.getD i 0) := by
  unfold detectBreakouts at he
  rcases List.mem_append.mp he with he | he
  · unfold resBreakoutEvents at he
    simp only [List.mem_map, List.mem_filter, List.mem_range] at he
    obtain ⟨i, ⟨hin, hcond⟩, rfl⟩ := he
    rw [Bool.and_eq_true] at hcond
    obtain ⟨hres, hvol⟩ := hcond
    obtain ⟨h1, ⟨m, hm, hmlt⟩, hoc⟩ := resBreakAt_iff.mp hres
    obtain ⟨a, ha, halt⟩ := highVolAt_iff.mp hvol
    exact ⟨i, hin, rfl, h1, ⟨m, hm, hmlt⟩, hoc, ⟨a, ha, halt⟩⟩
  · unfold supBreakoutEvents at he
    simp only [List.mem_map, List.mem_filter, List.mem_range] at he
    obtain ⟨i, _, rfl⟩ := he
    simp at ht

/-- C1 counterexample: on the series above, `_detect_breakouts` (with the
default `lookback = 20`, `volume_threshold = 1.5`) flags a resistance
breakout at bar 20, yet the bar's close (50) does NOT exceed the rolling
maximum of highs over the lookback window ending at bar 19, which is 1000
(the 1000-high sits at bar 5, inside the trailing window but outside the
centered window the code actually consults). -/

theorem resistance_breakout_lookahead_cex :
    ((detectBreakouts 20 (3/2) c1idx c1op c1hi c1lo c1cl c1vol).any
      (fun e => e.btype == "resistance_breakout" && e.timestamp == 20)) = true ∧
    trailingMaxPrev 20 c1hi 20 = some 1000 ∧
    c1cl.getD 20 0 ≤ 1000 := by
  refine ⟨by with_unfolding_all decide, by with_unfolding_all decide, by decide⟩

theorem insertLevel_fst_cases (tol v : ℚ) : ∀ (cs : List (ℚ × List ℚ)),
    (insertLevel tol cs v).map Prod.fst = cs.map Prod.fst ∨
    ((insertLevel tol cs v).map Prod.fst = cs.map Prod.fst ++ [v] ∧
      ∀ r ∈ cs.map Prod.fst, ¬(|v - r| / r ≤ tol))
  | [] => Or.inr (by simp [insertLevel])
  | (r, ms) :: rest => by
    unfold insertLevel
    by_cases h : |v - r| / r ≤ tol
    · rw [if_pos h]
      exact Or.inl (by simp)
    · rw [if_neg h]
      rcases insertLevel_fst_cases tol v rest with h2 | ⟨h2, h3⟩
      · exact Or.inl (by simp [h2])
      · refine Or.inr ⟨by simp [h2], ?_⟩
        intro x hx
        simp only [List.map_cons, List.mem_cons] at hx
        rcases hx with rfl | hx
        · exact h
        · exact h3 x hx

theorem insertLevel_of_all_fail (tol v : ℚ) : ∀ (cs : List (ℚ × List ℚ)),
    (∀ r ∈ cs.map Prod.fst, ¬(|v - r| / r ≤ tol)) →
    insertLevel tol cs v = cs ++ [(v, [v])]
  | [], _ => rfl
  | (r, ms) :: rest, h => by
    unfold insertLevel
    rw [if_neg (h r (by simp)), insertLevel_of_all_fail tol v rest
      (fun x hx => h x (by simp [hx]))]
    rfl

theorem cluster_fold_inv (tol : ℚ) : ∀ (l : List ℚ) (acc : List (ℚ × List ℚ)),
    List.Sorted (· ≤ ·) l →
    (∀ r ∈ acc.map Prod.fst, ∀ v ∈ l, r ≤ v) →
    (acc.map Prod.fst).Pairwise (fun r r' => ¬(|r' - r| / r ≤ tol)) →
    (acc.map Prod.fst).Pairwise (· ≤ ·) →
    ((l.foldl (insertLevel tol) acc).map Prod.fst).Pairwise
      (fun r r' => ¬(|r' - r| / r ≤ tol)) ∧
    ((l.foldl (insertLevel tol) acc).map Prod.fst).Pairwise (· ≤ ·)
  | [], acc, _, _, hsep, hasc => ⟨hsep, hasc⟩
  | v :: l', acc, hsort, hle, hsep, hasc => by
    rw [List.foldl_cons]
    have hsort2 := List.sorted_cons.mp hsort
    rcases insertLevel_fst_cases tol v acc with hcase | ⟨hcase, hfail⟩
    · refine cluster_fold_inv tol l' (insertLevel tol acc v) hsort2.2 ?_
        (by rw [hcase]; exact hsep) (by rw [hcase]; exact hasc)
      rw [hcase]
      intro r hr x hx
      exact hle r hr x (List.mem_cons.mpr (Or.inr hx))
    · refine cluster_fold_inv tol l' (insertLevel tol acc v) hsort2.2 ?_ ?_ ?_
      · rw [hcase]
        intro r hr x hx
        rcases List.mem_append.mp hr with hr | hr
        · exact hle r hr x (List.mem_cons.mpr (Or.inr hx))
        · simp only [List.mem_singleton] at hr
          subst hr
          exact hsort2.1 x hx
      · rw [hcase, List.pairwise_append]
        refine ⟨hsep, List.pairwise_singleton _ _, fun a ha b hb => ?_⟩
        simp only [List.mem_singleton] at hb
        subst hb
        exact hfail a ha
      · rw [hcase, List.pairwise_append]
        refine ⟨hasc, List.pairwise_singleton _ _, fun a ha b hb => ?_⟩
        simp only [List.mem_singleton] at hb
        rw [hb]
        exact hle a ha v (List.mem_cons_self v l')

theorem singletons_fold (tol : ℚ) : ∀ (rs accReps : List ℚ),
    (accReps ++ rs).Pairwise (fun r r' => ¬(|r' - r| / r ≤ tol)) →
    rs.foldl (insertLevel tol) (accReps.map (fun r => (r, [r]))) =
      (accReps ++ rs).map (fun r => (r, [r]))
  | [], accReps, _ => by simp
  | v :: rs', accReps, hsep => by
    rw [List.foldl_cons]
    have hcross := (List.pairwise_append.mp hsep).2.2
    have hfail : ∀ r ∈ (accReps.map (fun r => (r, [r]))).map Prod.fst,
        ¬(|v - r| / r ≤ tol) := by
      intro r hr
      simp only [List.map_map, Function.comp] at hr
      simp only [List.mem_map] at hr
      obtain ⟨x, hx, rfl⟩ := hr
      exact hcross x hx v (List.mem_cons_self v rs')
    rw [insertLevel_of_all_fail tol v _ hfail]
    have hstep : accReps.map (fun r => (r, [r])) ++ [(v, [v])] =
        (accReps ++ [v]).map (fun r => (r, [r])) := by simp
    rw [hstep, singletons_fold tol rs' (accReps ++ [v])
      (by rw [List.append_assoc]; simpa using hsep)]
    simp

/-- C5: clustering is idempotent — re-clustering the cluster
representatives (the dict keys of `_cluster_levels`) with the same tolerance
yields exactly one singleton cluster per representative, so no further
merging is possible.  Stated for positive candidate values (price levels)
and non-negative tolerance, the domain on which the source's
`abs(level - key) / key <= tolerance` test is well defined. -/

theorem cluster_levels_idempotent (levels : List ℚ) (tol : ℚ)
    (hpos : ∀ v ∈ levels, 0 < v) (htol : 0 ≤ tol) :
    clusterLevels ((clusterLevels levels tol).map Prod.fst) tol =
      ((clusterLevels levels tol).map Prod.fst).map (fun r => (r, [r])) := by
  clear hpos htol
  obtain ⟨hsep, hasc⟩ := cluster_fold_inv tol (levels.insertionSort (· ≤ ·)) []
    (List.sorted_insertionSort (· ≤ ·) levels) (by simp) (by simp) (by simp)
  have hrs_sorted : List.Sorted (· ≤ ·)
      ((clusterLevels levels tol).map Prod.fst) := hasc
  show ((((clusterLevels levels tol).map Prod.fst).insertionSort
      (· ≤ ·)).foldl (insertLevel tol) []) =
    ((clusterLevels levels tol).map Prod.fst).map (fun r => (r, [r]))
  rw [hrs_sorted.insertionSort_eq]
  have hfold := singletons_fold tol
    ((clusterLevels levels tol).map Prod.fst) [] (by simpa using hsep)
  simpa using hfold

/-- C3: on the series above, the level cluster `{100, 102}` (touched at bars
3 and 10) is emitted with `strength = 2/16*100` as the claim states, but its
`last_touch` field is `102` — the maximum member PRICE — whereas the maximum
timestamp among the touching bars is `10`.  The source tracks touches only
by price, so `lastTouch` cannot be the claimed maximum timestamp. -/

theorem sr_last_touch_price_not_timestamp :
    ((detectSupportResistance 2 (1/50) c3idx c3hi c3lo).any
      (fun e => e.ltype == "resistance" && e.level == 100 &&
        e.touches == 2 && e.strength == 25/2 && e.last_touch == 102)) = true ∧
    ((resistanceCandidateBars c3hi 16).filter
      (fun t => c3hi.getD t 0 == 100 || c3hi.getD t 0 == 102)).map
      (fun t => c3idx.getD t 0) = [3, 10] ∧
    (102 : ℚ) ≠ 10 := by
  refine ⟨by with_unfolding_all decide, by with_unfolding_all decide,
    by decide⟩

/-- C5 witness: the idempotence theorem applied to the candidate levels of
the repository's own clustering unit test (`test_cluster_levels`),
`[100.0, 100.1, 100.2, 105.0, 105.1, 110.0]` with tolerance `0.02`. -/

theorem cluster_levels_idempotent_witness :
    clusterLevels
        ((clusterLevels [100, 1001/10, 1002/10, 105, 1051/10, 110]
          (1/50)).map Prod.fst) (1/50) =
      ((clusterLevels [100, 1001/10, 1002/10, 105, 1051/10, 110]
        (1/50)).map Prod.fst).map (fun r => (r, [r])) :=
  cluster_levels_idempotent [100, 1001/10, 1002/10, 105, 1051/10, 110] (1/50)
    (by with_unfolding_all decide) (by with_unfolding_all decide)

theorem bullishDivAt_some {ms : ℚ} {index : List Nat} {close : List ℚ}
    {rsi : List (Option ℚ)} {pT rT : List Nat} {i : Nat} {e : DivergenceEvent}
    (h : bullishDivAt ms index close rsi pT rT i = some e) :
    ms < e.strength ∧
    e.strength = |pairSlope close (pT.getD (i - 1) 0) (pT.getD i 0) *
      (rsiSlopeInRange rsi rT (pT.getD (i - 1) 0) (pT.getD i 0)).getD 0| := by
  unfold bullishDivAt at h
  cases hr : rsiSlopeInRange rsi rT (pT.getD (i - 1) 0) (pT.getD i 0) with
  | none => rw [hr] at h; exact absurd h (by simp)
  | some rs =>
    rw [hr] at h
    have h2 : (if pairSlope close (pT.getD (i - 1) 0) (pT.getD i 0) < 0 ∧ 0 < rs
        then (if ms < |pairSlope close (pT.getD (i - 1) 0) (pT.getD i 0) * rs|
          then some ({ dtype := "bullish_divergence",
                       timestamp := index.getD (pT.getD i 0) 0,
                       price := close.getD (pT.getD i 0) 0,
                       rsi := rsi.getD (pT.getD i 0) none,
                       strength := |pairSlope close (pT.getD (i - 1) 0)
                         (pT.getD i 0) * rs| } : DivergenceEvent)
          else none)
        else none) = some e := h
    by_cases hc : pairSlope close (pT.getD (i - 1) 0) (pT.getD i 0) < 0 ∧ 0 < rs
    · rw [if_pos hc] at h2
      by_cases hs : ms < |pairSlope close (pT.getD (i - 1) 0) (pT.getD i 0) * rs|
      · rw [if_pos hs] at h2
        have he2 := Option.some_inj.mp h2
        constructor
        · rw [← he2]
          exact hs
        · rw [← he2]
          rfl
      · rw [if_neg hs] at h2
        exact absurd h2 (by simp)
    · rw [if_neg hc] at h2
      exact absurd h2 (by simp)

theorem bearishDivAt_some {ms : ℚ} {index : List Nat} {close : List ℚ}
    {rsi : List (Option ℚ)} {pP rP : List Nat} {i : Nat} {e : DivergenceEvent}
    (h : bearishDivAt ms index close rsi pP rP i = some e) :
    ms < e.strength ∧
    e.strength = |pairSlope close (pP.getD (i - 1) 0) (pP.getD i 0) *
      (rsiSlopeInRange rsi rP (pP.getD (i - 1) 0) (pP.getD i 0)).getD 0| := by
  unfold bearishDivAt at h
  cases hr : rsiSlopeInRange rsi rP (pP.getD (i - 1) 0) (pP.getD i 0) with
  | none => rw [hr] at h; exact absurd h (by simp)
  | some rs =>
    rw [hr] at h
    have h2 : (if 0 < pairSlope close (pP.getD (i - 1) 0) (pP.getD i 0) ∧ rs < 0
        then (if ms < |pairSlope close (pP.getD (i - 1) 0) (pP.getD i 0) * rs|
          then some ({ dtype := "bearish_divergence",
                       timestamp := index.getD (pP.getD i 0) 0,
                       price := close.getD (pP.getD i 0) 0,
                       rsi := rsi.getD (pP.getD i 0) none,
                       strength := |pairSlope close (pP.getD (i - 1) 0)
                         (pP.getD i 0) * rs| } : DivergenceEvent)
          else none)
        else none) = some e := h
    by_cases hc : 0 < pairSlope close (pP.getD (i - 1) 0) (pP.getD i 0) ∧ rs < 0
    · rw [if_pos hc] at h2
      by_cases hs : ms < |pairSlope close (pP.getD (i - 1) 0) (pP.getD i 0) * rs|
      · rw [if_pos hs] at h2
        have he2 := Option.some_inj.mp h2
        constructor
        · rw [← he2]
          exact hs
        · rw [← he2]
          rfl
      · rw [if_neg hs] at h2
        exact absurd h2 (by simp)
    · rw [if_neg hc] at h2
      exact absurd h2 (by simp)

/-- C6: every event emitted by `_detect_divergences` has
`strength = |priceSlope × rsiSlope|` for its extremum pair — hence
non-negative — and `strength > minStrength` (strict, so no event with
`strength ≤ minStrength` is ever emitted). -/

theorem divergence_strength_bounds (rsiPeriod : Nat) (minStrength : ℚ)
    (index : List Nat) (close : List ℚ) (e : DivergenceEvent)
    (he : e ∈ detectDivergences rsiPeriod minStrength index close) :
    0 ≤ e.strength ∧ minStrength < e.strength ∧
    ((∃ i, bullishDivAt minStrength index close (rsiSeries close rsiPeriod)
        (priceTroughs close) (rsiTroughs close rsiPeriod) i = some e ∧
      e.strength = |pairSlope close ((priceTroughs close).getD (i - 1) 0)
          ((priceTroughs close).getD i 0) *
        (rsiSlopeInRange (rsiSeries close rsiPeriod)
          (rsiTroughs close rsiPeriod) ((priceTroughs close).getD (i - 1) 0)
          ((priceTroughs close).getD i 0)).getD 0|) ∨
     (∃ i, bearishDivAt minStrength index close (rsiSeries close rsiPeriod)
        (pricePeaks close) (rsiPeaks close rsiPeriod) i = some e ∧
      e.strength = |pairSlope close ((pricePeaks close).getD (i - 1) 0)
          ((pricePeaks close).getD i 0) *
        (rsiSlopeInRange (rsiSeries close rsiPeriod)
          (rsiPeaks close rsiPeriod) ((pricePeaks close).getD (i - 1) 0)
          ((pricePeaks close).getD i 0)).getD 0|)) := by
  unfold detectDivergences at he
  by_cases hlen : close.length < 20
  · rw [if_pos hlen] at he
    exact absurd he (by simp)
  · rw [if_neg hlen] at he
    rcases List.mem_append.mp he with hb | hb
    · obtain ⟨i, _, hf⟩ := List.mem_filterMap.mp hb
      obtain ⟨h1, h2⟩ := bullishDivAt_some hf
      exact ⟨by rw [h2]; exact abs_nonneg _, h1, Or.inl ⟨i, hf, h2⟩⟩
    · obtain ⟨i, _, hf⟩ := List.mem_filterMap.mp hb
      obtain ⟨h1, h2⟩ := bearishDivAt_some hf
      exact ⟨by rw [h2]; exact abs_nonneg _, h1, Or.inr ⟨i, hf, h2⟩⟩

theorem rsiAt_eq_of_means {close : List ℚ} {p i : Nat} {g l : ℚ}
    (hg : rollingMean p (gains close) i = some g)
    (hl : rollingMean p (losses close) i = some l) (hl0 : l ≠ 0) :
    rsiAt close p i = some (100 - 100 / (1 + g / l)) := by
  unfold rsiAt
  rw [hg, hl]
  show (if l = 0 then (if g = 0 then none else some (100 : ℚ))
      else some (100 - 100 / (1 + g / l))) = some (100 - 100 / (1 + g / l))
  rw [if_neg hl0]

theorem c6rsi_eq : rsiSeries c6close 14 = c6rsi := by
  have h13 : rsiAt c6close 14 13 = some (300/53) := by
    rw [rsiAt_eq_of_means (g := 3/14) (l := 25/7)
      (by with_unfolding_all decide) (by with_unfolding_all decide)
      (by norm_num)]
    norm_num
  have h14 : rsiAt c6close 14 14 = some (300/59) := by
    rw [rsiAt_eq_of_means (g := 3/14) (l := 4)
      (by with_unfolding_all decide) (by with_unfolding_all decide)
      (by norm_num)]
    norm_num
  have h15 : rsiAt c6close 14 15 = some (25/8) := by
    rw [rsiAt_eq_of_means (g := 1/7) (l := 31/7)
      (by with_unfolding_all decide) (by with_unfolding_all decide)
      (by norm_num)]
    norm_num
  have h16 : rsiAt c6close 14 16 = some (200/69) := by
    rw [rsiAt_eq_of_means (g := 1/7) (l := 67/14)
      (by with_unfolding_all decide) (by with_unfolding_all decide)
      (by norm_num)]
    norm_num
  have h17 : rsiAt c6close 14 17 = some (550/39) := by
    rw [rsiAt_eq_of_means (g := 11/14) (l := 67/14)
      (by with_unfolding_all decide) (by with_unfolding_all decide)
      (by norm_num)]
    norm_num
  have h18 : rsiAt c6close 14 18 = some (2000/87) := by
    rw [rsiAt_eq_of_means (g := 10/7) (l := 67/14)
      (by with_unfolding_all decide) (by with_unfolding_all decide)
      (by norm_num)]
    norm_num
  have h19 : rsiAt c6close 14 19 = some (125/4) := by
    rw [rsiAt_eq_of_means (g := 15/7) (l := 33/7)
      (by with_unfolding_all decide) (by with_unfolding_all decide)
      (by norm_num)]
    norm_num
  have h20 : rsiAt c6close 14 20 = some (40) := by
    rw [rsiAt_eq_of_means (g := 20/7) (l := 30/7)
      (by with_unfolding_all decide) (by with_unfolding_all decide)
      (by norm_num)]
    norm_num
  have h21 : rsiAt c6close 14 21 = some (500/11) := by
    rw [rsiAt_eq_of_means (g := 45/14) (l := 27/7)
      (by with_unfolding_all decide) (by with_unfolding_all decide)
      (by norm_num)]
    norm_num
  have h22 : rsiAt c6close 14 22 = some (50) := by
    rw [rsiAt_eq_of_means (g := 24/7) (l := 24/7)
      (by with_unfolding_all decide) (by with_unfolding_all decide)
      (by norm_num)]
    norm_num
  have h23 : rsiAt c6close 14 23 = some (1600/33) := by
    rw [rsiAt_eq_of_means (g := 24/7) (l := 51/14)
      (by with_unfolding_all decide) (by with_unfolding_all decide)
      (by norm_num)]
    norm_num
  have h24 : rsiAt c6close 14 24 = some (800/17) := by
    rw [rsiAt_eq_of_means (g := 24/7) (l := 27/7)
      (by with_unfolding_all decide) (by with_unfolding_all decide)
      (by norm_num)]
    norm_num
  have h25 : rsiAt c6close 14 25 = some (320/7) := by
    rw [rsiAt_eq_of_means (g := 24/7) (l := 57/14)
      (by with_unfolding_all decide) (by with_unfolding_all decide)
      (by norm_num)]
    norm_num
  have h26 : rsiAt c6close 14 26 = some (400/9) := by
    rw [rsiAt_eq_of_means (g := 24/7) (l := 30/7)
      (by with_unfolding_all decide) (by with_unfolding_all decide)
      (by norm_num)]
    norm_num
  have h27 : rsiAt c6close 14 27 = some (1600/37) := by
    rw [rsiAt_eq_of_means (g := 24/7) (l := 9/2)
      (by with_unfolding_all decide) (by with_unfolding_all decide)
      (by norm_num)]
    norm_num
  have h28 : rsiAt c6close 14 28 = some (4800/113) := by
    rw [rsiAt_eq_of_means (g := 24/7) (l := 65/14)
      (by with_unfolding_all decide) (by with_unfolding_all decide)
      (by norm_num)]
    norm_num
  have h29 : rsiAt c6close 14 29 = some (5400/113) := by
    rw [rsiAt_eq_of_means (g := 27/7) (l := 59/14)
      (by with_unfolding_all decide) (by with_unfolding_all decide)
      (by norm_num)]
    norm_num
  have h30 : rsiAt c6close 14 30 = some (6000/113) := by
    rw [rsiAt_eq_of_means (g := 30/7) (l := 53/14)
      (by with_unfolding_all decide) (by with_unfolding_all decide)
      (by norm_num)]
    norm_num
  have h31 : rsiAt c6close 14 31 = some (5600/109) := by
    rw [rsiAt_eq_of_means (g := 4) (l := 53/14)
      (by with_unfolding_all decide) (by with_unfolding_all decide)
      (by norm_num)]
    norm_num
  have h0 : rsiAt c6close 14 0 = none := by with_unfolding_all decide
  have h1 : rsiAt c6close 14 1 = none := by with_unfolding_all decide
  have h2 : rsiAt c6close 14 2 = none := by with_unfolding_all decide
  have h3 : rsiAt c6close 14 3 = none := by with_unfolding_all decide
  have h4 : rsiAt c6close 14 4 = none := by with_unfolding_all decide
  have h5 : rsiAt c6close 14 5 = none := by with_unfolding_all decide
  have h6 : rsiAt c6close 14 6 = none := by with_unfolding_all decide
  have h7 : rsiAt c6close 14 7 = none := by with_unfolding_all decide
  have h8 : rsiAt c6close 14 8 = none := by with_unfolding_all decide
  have h9 : rsiAt c6close 14 9 = none := by with_unfolding_all decide
  have h10 : rsiAt c6close 14 10 = none := by with_unfolding_all decide
  have h11 : rsiAt c6close 14 11 = none := by with_unfolding_all decide
  have h12 : rsiAt c6close 14 12 = none := by with_unfolding_all decide
  show (List.range 32).map (fun i => rsiAt c6close 14 i) = c6rsi
  rw [show List.range 32 =
    [0, 1, 2, 3, 4, 5, 6, 7, 8, 9, 10, 11, 12, 13, 14, 15, 16, 17, 18, 19,
     20, 21, 22, 23, 24, 25, 26, 27, 28, 29, 30, 31] from rfl]
  simp only [List.map_cons, List.map_nil]
  rw [h0, h1, h2, h3, h4, h5, h6, h7, h8, h9, h10, h11, h12, h13, h14, h15, h16, h17, h18, h19, h20, h21, h22, h23, h24, h25, h26, h27, h28, h29, h30, h31]
  rfl

theorem c6priceT_eq : priceTroughs c6close = [2, 16, 28] := by
  with_unfolding_all decide

theorem c6rsiT_eq : rsiTroughs c6close 14 = [16, 28] := by
  unfold rsiTroughs
  rw [c6rsi_eq]
  with_unfolding_all decide

theorem c6slope_eq :
    rsiSlopeInRange c6rsi [16, 28] 16 28 = some (77150/23391) := by
  unfold rsiSlopeInRange
  rw [show ([16, 28] : List Nat).filter
      (fun t => decide (16 ≤ t) && decide (t ≤ 28)) = [16, 28] from rfl]
  rw [if_pos (by decide), show ([16, 28] : List Nat).getLastD 0 = 28 from rfl,
    show ([16, 28] : List Nat).headD 0 = 16 from rfl,
    show c6rsi.getD 28 none = some (4800/113) from rfl,
    show c6rsi.getD 16 none = some (200/69) from rfl]
  simp only [Option.getD_some, Option.some.injEq]
  push_cast
  norm_num

theorem c6ps_eq : pairSlope c6close 16 28 = -5/12 := by
  unfold pairSlope
  rw [show c6close.getD 28 0 = 80 from rfl,
    show c6close.getD 16 0 = 85 from rfl]
  push_cast
  norm_num

theorem c6div_eq :
    bullishDivAt (3/10) c6idx c6close c6rsi [2, 16, 28] [16, 28] 2 =
      some c6event := by
  unfold bullishDivAt
  rw [show ([2, 16, 28] : List Nat).getD (2 - 1) 0 = 16 from rfl,
    show ([2, 16, 28] : List Nat).getD 2 0 = 28 from rfl, c6slope_eq, c6ps_eq]
  show (if (-5/12 : ℚ) < 0 ∧ (0 : ℚ) < 77150/23391 then
      (if (3/10 : ℚ) < |(-5/12 : ℚ) * (77150/23391)| then
        some ({ dtype := "bullish_divergence", timestamp := c6idx.getD 28 0,
                 price := c6close.getD 28 0, rsi := c6rsi.getD 28 none,
                 strength := |(-5/12 : ℚ) * (77150/23391)| } : DivergenceEvent)
      else none)
    else none) = some c6event
  have habs : |(-5/12 : ℚ) * (77150/23391)| = 192875/140346 := by
    rw [abs_mul, abs_of_nonpos (by norm_num : (-5/12 : ℚ) ≤ 0),
      abs_of_nonneg (by norm_num : (0 : ℚ) ≤ 77150/23391)]
    norm_num
  rw [habs, if_pos (by norm_num), if_pos (by norm_num)]
  rfl

/-- C6 witness: the theorem applied to the single bullish-divergence event
the detector emits on the concrete series above (defaults
`rsi_periods = 14`, `min_divergence_strength = 0.3`). -/

theorem divergence_strength_bounds_witness :
    0 ≤ c6event.strength ∧ (3/10 : ℚ) < c6event.strength ∧
    ((∃ i, bullishDivAt (3/10) c6idx c6close (rsiSeries c6close 14)
        (priceTroughs c6close) (rsiTroughs c6close 14) i = some c6event ∧
      c6event.strength = |pairSlope c6close ((priceTroughs c6close).getD (i - 1) 0)
          ((priceTroughs c6close).getD i 0) *
        (rsiSlopeInRange (rsiSeries c6close 14)
          (rsiTroughs c6close 14) ((priceTroughs c6close).getD (i - 1) 0)
          ((priceTroughs c6close).getD i 0)).getD 0|) ∨
     (∃ i, bearishDivAt (3/10) c6idx c6close (rsiSeries c6close 14)
        (pricePeaks c6close) (rsiPeaks c6close 14) i = some c6event ∧
      c6event.strength = |pairSlope c6close ((pricePeaks c6close).getD (i - 1) 0)
          ((pricePeaks c6close).getD i 0) *
        (rsiSlopeInRange (rsiSeries c6close 14)
          (rsiPeaks c6close 14) ((pricePeaks c6close).getD (i - 1) 0)
          ((pricePeaks c6close).getD i 0)).getD 0|)) :=
  divergence_strength_bounds 14 (3/10) c6idx c6close c6event (by
    unfold detectDivergences
    rw [if_neg (show ¬(c6close.length < 20) from by with_unfolding_all decide)]
    refine List.mem_append.mpr (Or.inl ?_)
    rw [c6priceT_eq, c6rsiT_eq, c6rsi_eq]
    exact List.mem_filterMap.mpr ⟨2, by decide, c6div_eq⟩)

theorem timestampsSorted_of_pairwise :
    ∀ {l : List Nat}, l.Pairwise (· ≤ ·) → timestampsSorted l = true
  | [], _ => rfl
  | [_], _ => rfl
  | a :: b :: t, h => by
    rw [List.pairwise_cons] at h
    unfold timestampsSorted
    rw [Bool.and_eq_true, decide_eq_true_iff]
    exact ⟨h.1 b (List.mem_cons_self b t), timestampsSorted_of_pairwise h.2⟩

theorem getD_lt_of_pairwise {index : List Nat} (hinc : index.Pairwise (· < ·))
    {i j : Nat} (hi : i < index.length) (hj : j < index.length) (hij : i < j) :
    index.getD i 0 < index.getD j 0 := by
  rw [List.getD_eq_getElem index 0 hi, List.getD_eq_getElem index 0 hj]
  exact List.pairwise_iff_getElem.mp hinc i j hi hj hij

/-- Positions of a filter of `List.range n` are pairwise increasing and
below `n`. -/

theorem filter_range_pairwise (p : Nat → Bool) (n : Nat) :
    ((List.range n).filter p).Pairwise (fun i j => i < j ∧ i < n ∧ j < n) := by
  have h1 : ((List.range n).filter p).Pairwise (· < ·) :=
    (List.pairwise_lt_range n).filter p
  rw [List.Pairwise.and_mem] at h1
  refine h1.imp (fun {a b} hab => ?_)
  obtain ⟨ha, hb, hlt⟩ := hab
  exact ⟨hlt, List.mem_range.mp (List.mem_filter.mp ha).1,
    List.mem_range.mp (List.mem_filter.mp hb).1⟩

theorem events_timestamps_pairwise_lt {index : List Nat}
    (hinc : index.Pairwise (· < ·)) (p : Nat → Bool) (f : Nat → BreakoutEvent)
    (hf : ∀ i, (f i).timestamp = index.getD i 0) :
    (((List.range index.length).filter p).map f).Pairwise
      (fun a b => a.timestamp < b.timestamp) := by
  rw [List.pairwise_map]
  refine (filter_range_pairwise p index.length).imp (fun {a b} hab => ?_)
  rw [hf a, hf b]
  exact getD_lt_of_pairwise hinc hab.2.1 hab.2.2 hab.1

/-- C7 (amended): on a series whose timestamps are strictly increasing, the
breakout list of `_detect_breakouts` carries at most one event per bar
(pairwise distinct timestamps — a bar cannot trigger both kinds, since
`close > open` and `close < open` exclude each other), and it is
chronologically ordered WITHIN each kind; but the list itself is all
resistance events first and then all support events, so the combined
sequence is not chronological whenever some support breakout precedes some
resistance breakout in time. -/

theorem breakout_order_within_kinds (lookback : Nat) (volTh : ℚ)
    (index : List Nat) (op hi lo cl vol : List ℚ)
    (hinc : index.Pairwise (· < ·)) :
    detectBreakouts lookback volTh index op hi lo cl vol =
      resBreakoutEvents lookback volTh index op hi lo cl vol
      ++ supBreakoutEvents lookback volTh index op hi lo cl vol ∧
    isChron (resBreakoutEvents lookback volTh index op hi lo cl vol) = true ∧
    isChron (supBreakoutEvents lookback volTh index op hi lo cl vol) = true ∧
    (detectBreakouts lookback volTh index op hi lo cl vol).Pairwise
      (fun a b => a.timestamp ≠ b.timestamp) := by
  refine ⟨rfl, ?_, ?_, ?_⟩
  · unfold isChron resBreakoutEvents
    refine timestampsSorted_of_pairwise ?_
    rw [List.pairwise_map]
    exact (events_timestamps_pairwise_lt hinc _ _ (fun i => rfl)).imp
      (fun {a b} h => le_of_lt h)
  · unfold isChron supBreakoutEvents
    refine timestampsSorted_of_pairwise ?_
    rw [List.pairwise_map]
    exact (events_timestamps_pairwise_lt hinc _ _ (fun i => rfl)).imp
      (fun {a b} h => le_of_lt h)
  · unfold detectBreakouts
    rw [List.pairwise_append]
    refine ⟨(events_timestamps_pairwise_lt hinc _ _ (fun i => rfl)).imp
        (fun {a b} h => ne_of_lt h),
      (events_timestamps_pairwise_lt hinc _ _ (fun i => rfl)).imp
        (fun {a b} h => ne_of_lt h), ?_⟩
    intro a ha b hb
    unfold resBreakoutEvents at ha
    unfold supBreakoutEvents at hb
    simp only [List.mem_map, List.mem_filter, List.mem_range] at ha hb
    obtain ⟨i, ⟨hin, hci⟩, rfl⟩ := ha
    obtain ⟨j, ⟨hjn, hcj⟩, rfl⟩ := hb
    simp only
    intro hts
    have hij : i = j := by
      by_contra hne
      rcases Nat.lt_or_ge i j with h | h
      · exact absurd hts (ne_of_lt (getD_lt_of_pairwise hinc hin hjn h))
      · have h2 : j < i := lt_of_le_of_ne h (fun hh => hne hh.symm)
        exact absurd hts.symm (ne_of_lt (getD_lt_of_pairwise hinc hjn hin h2))
    subst hij
    rw [Bool.and_eq_true] at hci hcj
    have h1 := (resBreakAt_iff.mp hci.1).2.2
    have h2 := (supBreakAt_iff.mp hcj.1).2.2
    exact absurd h2 (lt_asymm h1)

/-- C7 counterexample: this series produces a support breakout at bar 20 and
a resistance breakout at bar 21; `_detect_breakouts` returns the resistance
event first, so the breakout list is `[resistance@21, support@20]` — not in
chronological order of the triggering bars. -/

theorem breakout_order_cex :
    isChron (detectBreakouts 20 (3/2) c7idx c7op c7hi c7lo c7cl c7vol) = false ∧
    (detectBreakouts 20 (3/2) c7idx c7op c7hi c7lo c7cl c7vol).map
      (fun e => (e.btype, e.timestamp)) =
      [("resistance_breakout", 21), ("support_breakout", 20)] := by
  refine ⟨by with_unfolding_all decide, by with_unfolding_all decide⟩

/-- C7 witness: the amended theorem applied to the concrete series above
(whose timestamps 0..30 are strictly increasing). -/

theorem breakout_order_within_kinds_witness :
    detectBreakouts 20 (3/2) c7idx c7op c7hi c7lo c7cl c7vol =
      resBreakoutEvents 20 (3/2) c7idx c7op c7hi c7lo c7cl c7vol
      ++ supBreakoutEvents 20 (3/2) c7idx c7op c7hi c7lo c7cl c7vol ∧
    isChron (resBreakoutEvents 20 (3/2) c7idx c7op c7hi c7lo c7cl c7vol) = true ∧
    isChron (supBreakoutEvents 20 (3/2) c7idx c7op c7hi c7lo c7cl c7vol) = true ∧
    (detectBreakouts 20 (3/2) c7idx c7op c7hi c7lo c7cl c7vol).Pairwise
      (fun a b => a.timestamp ≠ b.timestamp) :=
  breakout_order_within_kinds 20 (3/2) c7idx c7op c7hi c7lo c7cl c7vol
    (by unfold c7idx; exact List.pairwise_lt_range 31)

theorem trailingSlice_self_mem {w : Nat} {xs : List ℚ} {i : Nat} {s : List ℚ}
    (h : trailingSlice w xs i = some s) : xs.getD i 0 ∈ s := by
  simp only [trailingSlice] at h
  split at h
  case isTrue hc =>
    obtain ⟨hw, hwi, hix⟩ := hc
    cases h
    have hdl : (xs.drop (i + 1 - w)).length = xs.length - (i + 1 - w) :=
      List.length_drop _ _
    have hlen : ((xs.drop (i + 1 - w)).take w).length = w := by
      rw [List.length_take, hdl]
      omega
    have hw1 : w - 1 < ((xs.drop (i + 1 - w)).take w).length := by omega
    have hidx : i + 1 - w + (w - 1) = i := by omega
    have hstep : ((xs.drop (i + 1 - w)).take w)[w - 1] = xs[i] := by
      rw [List.getElem_take, List.getElem_drop]
      congr 1
    rw [List.getD_eq_getElem xs 0 hix, ← hstep]
    exact List.getElem_mem _
  case isFalse => cases h

theorem rollingVar_nonneg {w : Nat} {xs : List ℚ} {i : Nat} {v2 : ℚ}
    (h : rollingVar w xs i = some v2) : 0 ≤ v2 := by
  simp only [rollingVar, Option.map_eq_some'] at h
  obtain ⟨s, hs, rfl⟩ := h
  have hnum : 0 ≤ (s.map (fun x => (x - s.sum / (w : ℚ)) ^ 2)).sum := by
    refine List.sum_nonneg ?_
    intro x hx
    simp only [List.mem_map] at hx
    obtain ⟨y, _, rfl⟩ := hx
    positivity
  have hden : (0 : ℚ) ≤ (w : ℚ) - 1 := by
    simp only [trailingSlice] at hs
    split at hs
    case isTrue hc =>
      have : 1 ≤ w := hc.1
      have : (1 : ℚ) ≤ (w : ℚ) := by exact_mod_cast this
      linarith
    case isFalse => cases hs
  exact div_nonneg hnum hden

theorem anomaly_var_pos {vol : List ℚ} {i : Nat}
    (hA : volumeAnomalyAt vol i = true) {v2 : ℚ}
    (hV : rollingVar 20 vol i = some v2) : 0 < v2 := by
  unfold volumeAnomalyAt at hA
  cases hm : rollingMean 20 vol i with
  | none => rw [hm] at hA; simp at hA
  | some m =>
    rw [hm, hV] at hA
    have hA2 : (decide (m < vol.getD i 0) &&
        decide (4 * v2 < (vol.getD i 0 - m) ^ 2)) = true := hA
    rw [Bool.and_eq_true, decide_eq_true_iff, decide_eq_true_iff] at hA2
    obtain ⟨hlt, hsq⟩ := hA2
    obtain ⟨s, hs, hv2⟩ : ∃ s, trailingSlice 20 vol i = some s ∧
        v2 = (s.map (fun x => (x - s.sum / ((20 : Nat) : ℚ)) ^ 2)).sum /
          (((20 : Nat) : ℚ) - 1) := by
      simp only [rollingVar, Option.map_eq_some'] at hV
      obtain ⟨s, hs, hv⟩ := hV
      exact ⟨s, hs, hv.symm⟩
    have hmeq : m = s.sum / ((20 : Nat) : ℚ) := by
      have hmean : rollingMean 20 vol i = some (s.sum / ((20 : Nat) : ℚ)) := by
        simp only [rollingMean, hs, Option.map_some']
      rw [hm] at hmean
      exact Option.some_inj.mp hmean
    have hterm : (vol.getD i 0 - m) ^ 2 ≤
        (s.map (fun x => (x - s.sum / ((20 : Nat) : ℚ)) ^ 2)).sum := by
      rw [hmeq]
      refine List.single_le_sum ?_ _ ?_
      · intro x hx
        simp only [List.mem_map] at hx
        obtain ⟨y, _, rfl⟩ := hx
        positivity
      · exact List.mem_map.mpr ⟨vol.getD i 0, trailingSlice_self_mem hs, rfl⟩
    have h19 : (((20 : Nat) : ℚ) - 1) = 19 := by norm_num
    rw [h19] at hv2
    have hS : (s.map (fun x => (x - s.sum / ((20 : Nat) : ℚ)) ^ 2)).sum =
        19 * v2 := by
      rw [hv2]
      field_simp
    rw [hS] at hterm
    linarith

theorem anomaly_implies_var_some {vol : List ℚ} {i : Nat}
    (hA : volumeAnomalyAt vol i = true) :
    ∃ v2, rollingVar 20 vol i = some v2 := by
  unfold volumeAnomalyAt at hA
  cases hm : rollingMean 20 vol i with
  | none => rw [hm] at hA; simp at hA
  | some m =>
    cases hV : rollingVar 20 vol i with
    | none => rw [hm, hV] at hA; simp at hA
    | some v2 => exact ⟨v2, rfl⟩

/-- C9: `_detect_volume_anomalies` flags row `i` exactly when the rolling
20-bar mean and standard deviation are defined and
`volume > mean + 2 × stddev` (with `stddev = √variance`); moreover whenever
a row is flagged the rolling variance is strictly positive, so the
`deviation = (volume − mean) / stddev` of every emitted event has a non-zero
denominator (if the std is zero, all 20 window values — the row's own volume
among them — equal the mean, so the strict comparison already fails and no
anomaly is reported; an undefined std likewise reports nothing, and no
division fault can occur). -/

theorem volume_anomaly_iff_two_sigma (index : List Nat) (vol : List ℚ)
    (i : Nat) :
    (volumeAnomalyAt vol i = true ↔
      ∃ m v2, rollingMean 20 vol i = some m ∧ rollingVar 20 vol i = some v2 ∧
        ((m : ℝ) + 2 * Real.sqrt ((v2 : ℚ) : ℝ) < ((vol.getD i 0 : ℚ) : ℝ))) ∧
    (∀ v2, volumeAnomalyAt vol i = true → rollingVar 20 vol i = some v2 →
      0 < v2) ∧
    (∀ e, e ∈ detectVolumeAnomalies index vol → 0 < e.devVar) := by
  refine ⟨?_, fun v2 hA hV => anomaly_var_pos hA hV, ?_⟩
  · unfold volumeAnomalyAt
    cases hm : rollingMean 20 vol i with
    | none =>
      simp only [Bool.false_eq_true, false_iff]
      rintro ⟨m, v2, hmm, -, -⟩
      exact absurd hmm (by simp)
    | some m =>
      cases hV : rollingVar 20 vol i with
      | none =>
        simp only [Bool.false_eq_true, false_iff]
        rintro ⟨m2, v2, -, hvv, -⟩
        exact absurd hvv (by simp)
      | some v2 =>
        have hvar0 : (0 : ℝ) ≤ ((v2 : ℚ) : ℝ) := by
          have := rollingVar_nonneg hV
          exact_mod_cast this
        constructor
        · intro hA
          have hA2 : (decide (m < vol.getD i 0) &&
              decide (4 * v2 < (vol.getD i 0 - m) ^ 2)) = true := hA
          rw [Bool.and_eq_true, decide_eq_true_iff, decide_eq_true_iff] at hA2
          obtain ⟨hlt, hsq⟩ := hA2
          refine ⟨m, v2, rfl, rfl, ?_⟩
          have hltR : ((m : ℚ) : ℝ) < ((vol.getD i 0 : ℚ) : ℝ) := by
            exact_mod_cast hlt
          have hsqR : 4 * ((v2 : ℚ) : ℝ) <
              (((vol.getD i 0 : ℚ) : ℝ) - ((m : ℚ) : ℝ)) ^ 2 := by
            have : ((4 * v2 : ℚ) : ℝ) < (((vol.getD i 0 - m) ^ 2 : ℚ) : ℝ) := by
              exact_mod_cast hsq
            push_cast at this
            linarith
          have hhalf : (0 : ℝ) <
              (((vol.getD i 0 : ℚ) : ℝ) - ((m : ℚ) : ℝ)) / 2 := by linarith
          have hsqrt : Real.sqrt ((v2 : ℚ) : ℝ) <
              (((vol.getD i 0 : ℚ) : ℝ) - ((m : ℚ) : ℝ)) / 2 := by
            rw [Real.sqrt_lt' hhalf]
            nlinarith
          linarith
        · rintro ⟨m2, v22, hm2, hv22, hR⟩
          have hm2e : m = m2 := Option.some_inj.mp hm2
          have hv22e : v2 = v22 := Option.some_inj.mp hv22
          rw [← hm2e, ← hv22e] at hR
          have hs0 := Real.sqrt_nonneg ((v2 : ℚ) : ℝ)
          have hltR : ((m : ℚ) : ℝ) < ((vol.getD i 0 : ℚ) : ℝ) := by linarith
          have hlt : m < vol.getD i 0 := by exact_mod_cast hltR
          have h2s : 2 * Real.sqrt ((v2 : ℚ) : ℝ) <
              ((vol.getD i 0 : ℚ) : ℝ) - ((m : ℚ) : ℝ) := by linarith
          have hsq2 : (2 * Real.sqrt ((v2 : ℚ) : ℝ)) ^ 2 <
              (((vol.getD i 0 : ℚ) : ℝ) - ((m : ℚ) : ℝ)) ^ 2 :=
            pow_lt_pow_left₀ h2s (by positivity) (by norm_num)
          have hsqv : (2 * Real.sqrt ((v2 : ℚ) : ℝ)) ^ 2 =
              4 * ((v2 : ℚ) : ℝ) := by
            rw [mul_pow, Real.sq_sqrt hvar0]
            norm_num
          rw [hsqv] at hsq2
          have hsqQ : 4 * v2 < (vol.getD i 0 - m) ^ 2 := by
            have hcast : ((4 * v2 : ℚ) : ℝ) <
                (((vol.getD i 0 - m) ^ 2 : ℚ) : ℝ) := by
              push_cast
              linarith
            exact_mod_cast hcast
          show (decide (m < vol.getD i 0) &&
              decide (4 * v2 < (vol.getD i 0 - m) ^ 2)) = true
          rw [Bool.and_eq_true, decide_eq_true_iff, decide_eq_true_iff]
          exact ⟨hlt, hsqQ⟩
  · intro e he
    unfold detectVolumeAnomalies at he
    simp only [List.mem_map, List.mem_filter, List.mem_range] at he
    obtain ⟨j, ⟨hj, hA⟩, rfl⟩ := he
    obtain ⟨v2, hV⟩ := anomaly_implies_var_some hA
    simp only
    rw [hV]
    exact anomaly_var_pos hA hV

/-- C10: `_detect_trend_changes` never emits a bullish and a bearish
crossover event at the same bar: on a series with unique timestamps, for
every timestamp `t` either no bullish-crossover event or no
bearish-crossover event carries `t` (the masks demand `sma_20 > sma_50` and
`sma_20 < sma_50` simultaneously, which is impossible). -/

theorem no_simultaneous_crossovers (index : List Nat) (close : List ℚ)
    (hnd : index.Nodup) (t : Nat) :
    ((detectTrendChanges index close).filter
      (fun e => e.ttype == "bullish_crossover" && e.timestamp == t)).isEmpty
        = true ∨
    ((detectTrendChanges index close).filter
      (fun e => e.ttype == "bearish_crossover" && e.timestamp == t)).isEmpty
        = true := by
  by_cases hbull : ((detectTrendChanges index close).filter
      (fun e => e.ttype == "bullish_crossover" && e.timestamp == t)).isEmpty
        = true
  · exact Or.inl hbull
  · refine Or.inr ?_
    rw [List.isEmpty_iff]
    by_contra hbear
    rw [← List.isEmpty_iff] at hbear
    obtain ⟨eb, hebmem⟩ : ∃ e, e ∈ (detectTrendChanges index close).filter
        (fun e => e.ttype == "bullish_crossover" && e.timestamp == t) := by
      cases hl : (detectTrendChanges index close).filter
          (fun e => e.ttype == "bullish_crossover" && e.timestamp == t) with
      | nil => exact absurd (by rw [hl]; rfl) hbull
      | cons a l => exact ⟨a, List.mem_cons_self a l⟩
    obtain ⟨er, hermem⟩ : ∃ e, e ∈ (detectTrendChanges index close).filter
        (fun e => e.ttype == "bearish_crossover" && e.timestamp == t) := by
      cases hl : (detectTrendChanges index close).filter
          (fun e => e.ttype == "bearish_crossover" && e.timestamp == t) with
      | nil => exact absurd (by rw [hl]; rfl) hbear
      | cons a l => exact ⟨a, List.mem_cons_self a l⟩
    rw [List.mem_filter] at hebmem hermem
    obtain ⟨hebin, hebp⟩ := hebmem
    obtain ⟨herin, herp⟩ := hermem
    rw [Bool.and_eq_true, beq_iff_eq, beq_iff_eq] at hebp herp
    unfold detectTrendChanges at hebin herin
    rcases List.mem_append.mp hebin with hb | hb
    swap
    · simp only [List.mem_map, List.mem_filter, List.mem_range] at hb
      obtain ⟨j, _, rfl⟩ := hb
      exact absurd hebp.1 (by simp)
    rcases List.mem_append.mp herin with hr | hr
    · simp only [List.mem_map, List.mem_filter, List.mem_range] at hr
      obtain ⟨j, _, rfl⟩ := hr
      exact absurd herp.1 (by simp)
    simp only [List.mem_map, List.mem_filter, List.mem_range] at hb hr
    obtain ⟨i, ⟨hin, hci⟩, rfl⟩ := hb
    obtain ⟨j, ⟨hjn, hcj⟩, rfl⟩ := hr
    have hts : index.getD i 0 = index.getD j 0 := by
      have h1 : index.getD i 0 = t := hebp.2
      have h2 : index.getD j 0 = t := herp.2
      rw [h1, h2]
    rw [List.getD_eq_getElem index 0 hin, List.getD_eq_getElem index 0 hjn]
      at hts
    have hij : i = j := by
      have := (hnd.get_inj_iff (i := ⟨i, hin⟩) (j := ⟨j, hjn⟩)).mp (by
        simpa using hts)
      simpa using this
    subst hij
    unfold bullishCrossAt at hci
    unfold bearishCrossAt at hcj
    rw [Bool.and_eq_true] at hci hcj
    have h1 := hci.1
    have h2 := hcj.1
    unfold optLt at h1 h2
    cases h20 : rollingMean 20 close i with
    | none =>
      rw [h20] at h2
      exact Bool.noConfusion (show false = true from h2)
    | some a =>
      cases h50 : rollingMean 50 close i with
      | none =>
        rw [h20, h50] at h1
        exact Bool.noConfusion (show false = true from h1)
      | some b =>
        rw [h20, h50] at h1 h2
        have h1q : b < a := of_decide_eq_true
          (show decide (b < a) = true from h1)
        have h2q : a < b := of_decide_eq_true
          (show decide (a < b) = true from h2)
        exact absurd h2q (lt_asymm h1q)

/-- C10 witness: the theorem applied to a concrete series with unique
timestamps. -/

theorem no_simultaneous_crossovers_witness :
    ((detectTrendChanges (List.range 3) [1, 2, 3]).filter
      (fun e => e.ttype == "bullish_crossover" && e.timestamp == 1)).isEmpty
        = true ∨
    ((detectTrendChanges (List.range 3) [1, 2, 3]).filter
      (fun e => e.ttype == "bearish_crossover" && e.timestamp == 1)).isEmpty
        = true :=
  no_simultaneous_crossovers (List.range 3) [1, 2, 3] (by decide) 1

/-- C1 witness: the amended theorem applied to the flagged bar 20 of the
concrete series above. -/

theorem resistance_breakout_conditions_witness :
    ∃ i, i < c1idx.length ∧
      (⟨"resistance_breakout", 20, 50, 100, 0⟩ : BreakoutEvent).timestamp =
        c1idx.getD i 0 ∧ 1 ≤ i ∧
      (∃ m, rollingMaxCentered 20 c1hi (i - 1) = some m ∧
        m < c1cl.getD i 0) ∧
      c1op.getD i 0 < c1cl.getD i 0 ∧
      (∃ a, rollingMean 20 c1vol i = some a ∧
        a * (3/2) < c1vol.getD i 0) :=
  resistance_breakout_conditions 20 (3/2) c1idx c1op c1hi c1lo c1cl c1vol
    ⟨"resistance_breakout", 20, 50, 100, 0⟩ (by with_unfolding_all decide) rfl

/-- C4 counterexample: `analyze` on the empty series does not abort and
reports no error — it returns an ordinary `AnalysisResult` whose five event
sequences are all empty (exactly the value the claim says an error outcome
must be distinguishable from).  The source's `analyze` has no input
validation at all. -/

theorem analyze_empty_input_cex :
    analyze {} 0 emptyDF "BTC" =
      { symbol := "BTC", timestamp := 0, breakouts := [], divergences := [],
        support_resistance := [], trend_changes := [], volume_anomalies := [],
        technical_signals := ⟨none, none, none⟩ } := rfl

/-- C4 (amended): `analyze` performs no emptiness or sortedness check: on
the empty series and on an unsorted series alike, every detector runs and
`analyze` returns an ordinary assembled `AnalysisResult` (empty event
sequences, no error outcome of any kind), for every symbol and clock
value. -/

theorem analyze_no_input_validation :
    (∀ now symbol, analyze {} now emptyDF symbol =
      { symbol := symbol, timestamp := now, breakouts := [], divergences := [],
        support_resistance := [], trend_changes := [], volume_anomalies := [],
        technical_signals := ⟨none, none, none⟩ }) ∧
    (∀ now symbol, analyze {} now unsortedDF symbol =
      { symbol := symbol, timestamp := now, breakouts := [], divergences := [],
        support_resistance := [], trend_changes := [], volume_anomalies := [],
        technical_signals :=
          ⟨some { current := none, overbought := false, oversold := false },
           some { current := some (-7/312), signal := some (-35/2808),
                  histogram := some (-7/702), bullish_crossover := false,
                  bearish_crossover := true },
           some { sma_20 := none, sma_50 := none, bullish := none }⟩ }) := by
  constructor
  · intro now symbol
    rfl
  · intro now symbol
    with_unfolding_all rfl

theorem detector_fault_containment :
    (∀ cfg : PatternsConfig, ∀ now df symbol err,
      (breakoutsBody cfg.breakoutLookback cfg.breakoutVolumeThreshold df =
          Except.error err → (analyze cfg now df symbol).breakouts = []) ∧
      (divergencesBody cfg.divergenceRsiPeriods cfg.divergenceMinStrength df =
          Except.error err → (analyze cfg now df symbol).divergences = []) ∧
      (supportResistanceBody cfg.srMinTouches cfg.srTolerance df =
          Except.error err →
        (analyze cfg now df symbol).support_resistance = []) ∧
      (trendChangesBody df = Except.error err →
        (analyze cfg now df symbol).trend_changes = []) ∧
      (volumeAnomaliesBody df = Except.error err →
        (analyze cfg now df symbol).volume_anomalies = []) ∧
      (analyze cfg now df symbol).symbol = symbol ∧
      (analyze cfg now df symbol).timestamp = now ∧
      (analyze cfg now df symbol).divergences =
        (if cfg.divergenceEnabled then
          detectDivergencesDF cfg.divergenceRsiPeriods
            cfg.divergenceMinStrength df else []) ∧
      (analyze cfg now df symbol).trend_changes = detectTrendChangesDF df ∧
      (analyze cfg now df symbol).technical_signals = technicalSignalsDF df) ∧
    breakoutsBody 20 (3/2) noVolumeDF = Except.error "volume" ∧
    (analyze {} 0 noVolumeDF "X").breakouts = [] ∧
    (analyze {} 0 noVolumeDF "X").volume_anomalies = [] ∧
    (analyze {} 0 noVolumeDF "X").trend_changes =
      detectTrendChanges noVolumeDF.index [2, 3, 4] ∧
    (analyze {} 0 noVolumeDF "X").technical_signals =
      technicalSignals [2, 3, 4] := by
  refine ⟨?_, rfl, ?_, ?_, rfl, rfl⟩
  · intro cfg now df symbol err
    refine ⟨?_, ?_, ?_, ?_, ?_, rfl, rfl, rfl, rfl, rfl⟩
    · intro h
      show (if cfg.breakoutEnabled then detectBreakoutsDF cfg.breakoutLookback
          cfg.breakoutVolumeThreshold df else []) = []
      unfold detectBreakoutsDF
      rw [h]
      split <;> rfl
    · intro h
      show (if cfg.divergenceEnabled then detectDivergencesDF
          cfg.divergenceRsiPeriods cfg.divergenceMinStrength df else []) = []
      unfold detectDivergencesDF
      rw [h]
      split <;> rfl
    · intro h
      show (if cfg.srEnabled then detectSupportResistanceDF cfg.srMinTouches
          cfg.srTolerance df else []) = []
      unfold detectSupportResistanceDF
      rw [h]
      split <;> rfl
    · intro h
      show detectTrendChangesDF df = []
      unfold detectTrendChangesDF
      rw [h]
    · intro h
      show detectVolumeAnomaliesDF df = []
      unfold detectVolumeAnomaliesDF
      rw [h]
  · show (if true then detectBreakoutsDF 20 (3/2) noVolumeDF else []) = []
    rfl
  · rfl
